import Mathlib

/-!
indigenas-site: scroll-driven scene, per-frame animator, audio manager.

A shallow embedding of `src/js/main.js`.

* JavaScript numbers are rationals and their arithmetic is exact, with one exception: in the
  sparks and rain loops of `animate`, whose recycle tests read the cell just written, the
  double arithmetic (`round64`) and the store into the `Float32Array` cell (`fround`) are
  rounded as the machine rounds them.
* `gsap.to(obj, { p: v, duration: 1 })` is recorded by the target `v` of the most
  recently issued tween on `obj.p`; the scene keeps these targets next to the flags.
* `Math.random()` is a stream `random : Nat → ℚ` read through a call counter kept in the
  state; `Math.sin` / `Math.cos` are parameters `sin cos : ℚ → ℚ`.
* `clock.getElapsedTime()` is the argument `elapsedTime` of `animate`.
* Typed arrays are total functions `Nat → ℚ` from the flat index to the cell.
-/

namespace IndigenasSite

/-! ## Scene state -/

/-- The three colour channels of `scene.fog.color`. -/
structure RGB where
  r : ℚ
  g : ℚ
  b : ℚ
deriving DecidableEq

/-- The mutable scene state of `main.js` that the trigger callbacks and `animate` touch. -/
structure Scene where
  /-- Source `cocarGroup.visible` -/
  cocarGroupVisible : Bool
  /-- Source `forestGroup.visible` -/
  forestGroupVisible : Bool
  /-- Source `sparks.visible` -/
  sparksVisible : Bool
  /-- Source `rain.visible` -/
  rainVisible : Bool
  /-- Source `artifactGroup.visible` -/
  artifactGroupVisible : Bool
  /-- Source `constellationGroup.visible` -/
  constellationGroupVisible : Bool
  /-- target of the last `gsap.to(scene.fog, { density })` -/
  fogDensityTarget : ℚ
  /-- target of the last `gsap.to(scene.fog.color, { r, g, b })` -/
  fogColorTarget : RGB
  /-- Source `material.uniforms.uTime.value` -/
  uTime : ℚ
  /-- Source `particles.rotation.y` -/
  particlesRotationY : ℚ
  /-- Source `cocarGroup.rotation.y` -/
  cocarRotationY : ℚ
  /-- Source `cocarGroup.position.y` -/
  cocarPositionY : ℚ
  /-- Source `forestMaterial.uniforms.uScanHeight.value` -/
  uScanHeight : ℚ
  /-- Source `sparks.geometry.attributes.position.array` -/
  sparkPos : Nat → ℚ
  /-- Source `rain.geometry.attributes.position.array` -/
  rainPos : Nat → ℚ
  /-- Source `fireflies.geometry.attributes.position.array` -/
  fireflyPositions : Nat → ℚ
  /-- Source `artifactGroup.rotation.y` -/
  artifactRotationY : ℚ
  /-- Source `pottery.rotation.z` -/
  potteryRotationZ : ℚ
  /-- Source `constellationGroup.rotation.z` -/
  constellationRotationZ : ℚ
  /-- number of `Math.random()` calls made so far -/
  randomCalls : Nat

/-- The scene right after the set-up code (lines 33-320): every prop hidden, fog density
0.02 and fog colour `0x050505`, that is 5/255 per channel (line 36), animated values at
their constructor defaults. The particle buffers are filled with random numbers by the
set-up loops; they are arguments here. -/
def initialScene (sparkPos rainPos fireflyPositions : Nat → ℚ) : Scene where
  cocarGroupVisible := false
  forestGroupVisible := false
  sparksVisible := false
  rainVisible := false
  artifactGroupVisible := false
  constellationGroupVisible := false
  fogDensityTarget := 0.02
  fogColorTarget := ⟨5 / 255, 5 / 255, 5 / 255⟩
  uTime := 0
  particlesRotationY := 0
  cocarRotationY := 0
  cocarPositionY := 1
  uScanHeight := -5
  sparkPos := sparkPos
  rainPos := rainPos
  fireflyPositions := fireflyPositions
  artifactRotationY := 0
  potteryRotationZ := 0
  constellationRotationZ := 0
  randomCalls := 0

/-! ## Chapter triggers (lines 468-510) -/

/-- The four callbacks a `ScrollTrigger` can fire. -/
inductive Callback where
  | onEnter
  | onLeave
  | onEnterBack
  | onLeaveBack
deriving DecidableEq, Repr

/-- The options object passed to `ScrollTrigger.create`: the trigger selector and the four
callbacks, each a state transformer of the scene. -/
structure Trigger where
  trigger : String
  onEnter : Scene → Scene
  onLeave : Scene → Scene
  onEnterBack : Scene → Scene
  onLeaveBack : Scene → Scene

/-- The handler a trigger registered for a callback. -/
def Trigger.handler (t : Trigger) : Callback → Scene → Scene
  | .onEnter => t.onEnter
  | .onLeave => t.onLeave
  | .onEnterBack => t.onEnterBack
  | .onLeaveBack => t.onLeaveBack

/-- Lines 468-474: `ScrollTrigger.create({ trigger: "#chapter-artifacts", ... })`. -/
def chapterArtifacts : Trigger where
  trigger := "#chapter-artifacts"
  onEnter := fun s => { s with artifactGroupVisible := true }
  onLeave := fun s => { s with artifactGroupVisible := false }
  onEnterBack := fun s => { s with artifactGroupVisible := true }
  onLeaveBack := fun s => { s with artifactGroupVisible := false }

/-- Lines 483-489: `ScrollTrigger.create({ trigger: "#chapter-fire", ... })`. -/
def chapterFire : Trigger where
  trigger := "#chapter-fire"
  onEnter := fun s =>
    { s with forestGroupVisible := true, sparksVisible := true, fogDensityTarget := 0.1 }
  onLeave := fun s =>
    { s with forestGroupVisible := false, sparksVisible := false, fogDensityTarget := 0.02 }
  onEnterBack := fun s =>
    { s with forestGroupVisible := true, sparksVisible := true, fogDensityTarget := 0.1 }
  onLeaveBack := fun s =>
    { s with forestGroupVisible := false, sparksVisible := false, fogDensityTarget := 0.02 }

/-- Lines 491-497: `ScrollTrigger.create({ trigger: "#chapter-resistance", ... })`. -/
def chapterResistance : Trigger where
  trigger := "#chapter-resistance"
  onEnter := fun s =>
    { s with rainVisible := true, fogDensityTarget := 0.05, fogColorTarget := ⟨0, 0, 0⟩ }
  onLeave := fun s =>
    { s with rainVisible := false, fogDensityTarget := 0.02,
             fogColorTarget := ⟨0.02, 0.02, 0.02⟩ }
  onEnterBack := fun s =>
    { s with rainVisible := true, fogDensityTarget := 0.05, fogColorTarget := ⟨0, 0, 0⟩ }
  onLeaveBack := fun s =>
    { s with rainVisible := false, fogDensityTarget := 0.02,
             fogColorTarget := ⟨0.02, 0.02, 0.02⟩ }

/-- Lines 504-510: `ScrollTrigger.create({ trigger: "#chapter-cosmology", ... })`. -/
def chapterCosmology : Trigger where
  trigger := "#chapter-cosmology"
  onEnter := fun s => { s with constellationGroupVisible := true, fogDensityTarget := 0.0 }
  onLeave := fun s => { s with constellationGroupVisible := false, fogDensityTarget := 0.02 }
  onEnterBack := fun s =>
    { s with constellationGroupVisible := true, fogDensityTarget := 0.0 }
  onLeaveBack := fun s =>
    { s with constellationGroupVisible := false, fogDensityTarget := 0.02 }

/-- The chapter triggers that drive scene props, in the order in which the script
registers them with `ScrollTrigger.create` (lines 468, 483, 491, 504). -/
def sceneTriggers : List Trigger :=
  [chapterArtifacts, chapterFire, chapterResistance, chapterCosmology]

/-- Apply, in order, the handlers a trigger registered for a sequence of fired callbacks. -/
def Trigger.fire (t : Trigger) (cs : List Callback) (s : Scene) : Scene :=
  cs.foldl (fun acc c => t.handler c acc) s

/-! ## Trigger state machine -/

/-- The states of a chapter trigger relative to its activation band. -/
inductive TriggerState where
  | before
  | active
  | after
deriving DecidableEq, Repr

/-- Position of a state along the scroll axis. -/
def TriggerState.rank : TriggerState → Nat
  | .before => 0
  | .active => 1
  | .after => 2

/-- Modelled from the spec: the dispatcher of the scroll-trigger library is not under
src/. The state a trigger with activation band `[a, b]` is in when the scroll position is
`pos`: Before below the band, Active inside it, After above it. -/
def zone (a b pos : ℚ) : TriggerState :=
  if pos < a then .before else if pos ≤ b then .active else .after

/-- Modelled from the spec: the dispatcher of the scroll-trigger library is not under
src/. The callbacks fired when a trigger moves from one state to another: the four
transitions of the state machine (Before → Active `onEnter`, Active → After `onLeave`,
After → Active `onEnterBack`, Active → Before `onLeaveBack`); a move that passes the
whole band fires the callbacks of both crossings, in the order of the crossings. -/
def crossing : TriggerState → TriggerState → List Callback
  | .before, .active => [.onEnter]
  | .active, .after => [.onLeave]
  | .after, .active => [.onEnterBack]
  | .active, .before => [.onLeaveBack]
  | .before, .after => [.onEnter, .onLeave]
  | .after, .before => [.onEnterBack, .onLeaveBack]
  | .before, .before => []
  | .active, .active => []
  | .after, .after => []

/-- Modelled from the spec: the dispatcher of the scroll-trigger library is not under
src/. One evaluation of a trigger at scroll position `pos`: the new state and the
callbacks fired. -/
def stepTrigger (a b : ℚ) (st : TriggerState) (pos : ℚ) : TriggerState × List Callback :=
  (zone a b pos, crossing st (zone a b pos))

/-- Modelled from the spec: the dispatcher of the scroll-trigger library is not under
src/. Evaluation of a trigger along a sequence of sampled scroll positions: the final
state and all callbacks fired, in firing order. -/
def sweep (a b : ℚ) : TriggerState → List ℚ → TriggerState × List Callback
  | st, [] => (st, [])
  | st, pos :: rest =>
    ((sweep a b (stepTrigger a b st pos).1 rest).1,
      (stepTrigger a b st pos).2 ++ (sweep a b (stepTrigger a b st pos).1 rest).2)

/-! ## Scroll timeline (lines 448-525) -/

/-- The `CONFIG.colors` table (lines 12-20): the channels `THREE.Color` computes for each
hex string. -/
structure Colors where
  origin : RGB
  connection : RGB
  territory : RGB
  resistance : RGB
  fire : RGB
  celebration : RGB
  future : RGB

/-- The hex strings of `CONFIG.colors` read as channel / 255. -/
def hexColors : Colors where
  origin := ⟨212 / 255, 163 / 255, 115 / 255⟩
  connection := ⟨42 / 255, 157 / 255, 143 / 255⟩
  territory := ⟨88 / 255, 129 / 255, 87 / 255⟩
  resistance := ⟨231 / 255, 111 / 255, 81 / 255⟩
  fire := ⟨255 / 255, 69 / 255, 0 / 255⟩
  celebration := ⟨244 / 255, 162 / 255, 97 / 255⟩
  future := ⟨168 / 255, 218 / 255, 220 / 255⟩

/-- The objects the scroll timeline animates. -/
inductive Target where
  /-- Source `material.uniforms.uColor.value` -/
  | uColor
  /-- Source `material.uniforms.uFormFactor` -/
  | uFormFactor
  /-- Source `camera.position` -/
  | cameraPosition
  /-- Source `camera.rotation` -/
  | cameraRotation
deriving DecidableEq, Repr

/-- One `.to(target, { ...vars, duration }, label)` call without its label. -/
structure Keyframe where
  target : Target
  vars : List (String × ℚ)
  duration : ℚ

/-- One statement `tl.to(...).to(...)...;` of the script: the keyframes it adds and the
label they are all positioned at. -/
structure KeyframeGroup where
  name : String
  label : String
  keyframes : List Keyframe

/-- The `{ r, g, b, duration: 1 }` keyframe on `uColor`. -/
def colorKeyframe (c : RGB) : Keyframe :=
  ⟨.uColor, [("r", c.r), ("g", c.g), ("b", c.b)], 1⟩

/-- The `{ value, duration: 1 }` keyframe on `uFormFactor`. -/
def formFactorKeyframe (v : ℚ) : Keyframe :=
  ⟨.uFormFactor, [("value", v)], 1⟩

/-- The `{ z, y, duration: 1 }` keyframe on `camera.position`. -/
def cameraKeyframe (z y : ℚ) : Keyframe :=
  ⟨.cameraPosition, [("z", z), ("y", y)], 1⟩

/-- The `{ x, duration: 1 }` keyframe on `camera.rotation`. -/
def cameraRotationKeyframe (x : ℚ) : Keyframe :=
  ⟨.cameraRotation, [("x", x)], 1⟩

/-- The keyframe groups of the scroll timeline in authored order (lines 452-525). -/
def keyframeGroups (c : Colors) : List KeyframeGroup :=
  [ ⟨"origin", "step1",
      [colorKeyframe c.origin, formFactorKeyframe 0.0, cameraKeyframe 5 2]⟩,
    ⟨"connection", "step1",
      [colorKeyframe c.connection, formFactorKeyframe 1.0, cameraKeyframe 4 1]⟩,
    ⟨"territory", "step2",
      [colorKeyframe c.territory, formFactorKeyframe 0.5, cameraKeyframe 3.5 0.8]⟩,
    ⟨"artifacts", "step_artifacts",
      [colorKeyframe ⟨0.545, 0.27, 0.074⟩, formFactorKeyframe 1.5, cameraKeyframe 3 0.5]⟩,
    ⟨"resistance", "step3",
      [colorKeyframe c.resistance, formFactorKeyframe 2.0, cameraKeyframe 3 0.5]⟩,
    ⟨"fire", "step_fire",
      [colorKeyframe c.fire, cameraKeyframe 2 0.2]⟩,
    ⟨"cosmology", "step_cosmology",
      [colorKeyframe ⟨0.0, 0.0, 0.2⟩, formFactorKeyframe 0.0, cameraKeyframe 2 5,
        cameraRotationKeyframe 0.5]⟩,
    ⟨"camera reset", "step_reset_cam",
      [cameraRotationKeyframe 0]⟩,
    ⟨"heroes", "step_heroes",
      [colorKeyframe ⟨0.2, 0.1, 0.05⟩, formFactorKeyframe 1.0, cameraKeyframe 4 1]⟩,
    ⟨"celebration", "step4",
      [colorKeyframe c.celebration, formFactorKeyframe 1.5, cameraKeyframe 5 2]⟩,
    ⟨"future", "step5",
      [colorKeyframe c.future, formFactorKeyframe 0.5, cameraKeyframe 6 3]⟩ ]

/-- A keyframe placed on the timeline: it runs from `start` to `start + duration`. -/
structure Tween where
  start : ℚ
  keyframe : Keyframe

/-- A timeline: its labels with their positions and the tweens placed so far. -/
structure Timeline where
  labels : List (String × ℚ)
  tweens : List Tween

/-- The current end of the timeline: the latest end of its tweens, 0 when it is empty. -/
def Timeline.duration (tl : Timeline) : ℚ :=
  tl.tweens.foldl (fun m t => max m (t.start + t.keyframe.duration)) 0

/-- Modelled from the spec: the timeline of the animation library is not under src/.
`tl.to(target, vars, label)` places the keyframe at the position of `label`; a label that
does not exist yet is first placed at the current end of the timeline, an already existing
label keeps its position. -/
def Timeline.to (tl : Timeline) (k : Keyframe) (label : String) : Timeline :=
  match tl.labels.lookup label with
  | some pos => { tl with tweens := tl.tweens ++ [⟨pos, k⟩] }
  | none =>
    { labels := tl.labels ++ [(label, tl.duration)],
      tweens := tl.tweens ++ [⟨tl.duration, k⟩] }

/-- One statement of chained `.to` calls, all with the group's label. -/
def Timeline.addGroup (tl : Timeline) (g : KeyframeGroup) : Timeline :=
  g.keyframes.foldl (fun acc k => acc.to k g.label) tl

/-- The timeline `tl` after all statements of lines 452-525 have run. -/
def scrollTimeline (c : Colors) : Timeline :=
  (keyframeGroups c).foldl Timeline.addGroup ⟨[], []⟩

/-- Where a group starts: the position of its label. -/
def groupStart (tl : Timeline) (g : KeyframeGroup) : ℚ :=
  (tl.labels.lookup g.label).getD 0

/-- Where a group ends: the latest end of its keyframes, all placed at its label. -/
def groupEnd (tl : Timeline) (g : KeyframeGroup) : ℚ :=
  g.keyframes.foldl (fun m k => max m (groupStart tl g + k.duration)) (groupStart tl g)

/-- The range of every group on the finished timeline, in authored order. -/
def groupRanges (c : Colors) : List (String × ℚ × ℚ) :=
  (keyframeGroups c).map fun g =>
    (g.name, groupStart (scrollTimeline c) g, groupEnd (scrollTimeline c) g)

/-- Each range starts exactly where the one before it ends. -/
def Consecutive (ranges : List (String × ℚ × ℚ)) : Prop :=
  List.Chain' (fun x y => y.2.1 = x.2.2) ranges

/-- The labels and the current end of a timeline: all that the placement of later
keyframes depends on. -/
def Timeline.summary (tl : Timeline) : List (String × ℚ) × ℚ :=
  (tl.labels, tl.duration)

/-- The effect of one group on the labels and the end of the timeline (proved equal to
that of `Timeline.addGroup` in `addGroup_summary`). -/
def layoutStep (st : List (String × ℚ) × ℚ) (g : KeyframeGroup) : List (String × ℚ) × ℚ :=
  match st.1.lookup g.label with
  | some pos => (st.1, g.keyframes.foldl (fun m k => max m (pos + k.duration)) st.2)
  | none =>
    (st.1 ++ [(g.label, st.2)], g.keyframes.foldl (fun m k => max m (st.2 + k.duration)) st.2)

/-! ## Machine rounding -/

/-- Round a rational to the nearest integer, ties to the even one. -/
def roundHalfEven (x : ℚ) : ℤ :=
  if x - ⌊x⌋ < 1 / 2 then ⌊x⌋
  else if 1 / 2 < x - ⌊x⌋ then ⌊x⌋ + 1
  else if ⌊x⌋ % 2 = 0 then ⌊x⌋ else ⌊x⌋ + 1

/-- Exponent of the binade of `q` in a binary floating-point format whose least normal
exponent is `emin`: the `e` with `2 ^ e ≤ |q| < 2 ^ (e + 1)`, and `emin` for smaller `q`. -/
def binade (emin : ℤ) (q : ℚ) : ℤ :=
  max (Int.log 2 |q|) emin

/-- Round to nearest, ties to even, in the binary floating-point format with `prec`
significant bits and least normal exponent `emin`: `q` is rounded to a whole number of
units `2 ^ (e - (prec - 1))` of its binade `e`. Overflow to infinity is not modelled. -/
def roundBinary (prec : ℕ) (emin : ℤ) (q : ℚ) : ℚ :=
  roundHalfEven (q / 2 ^ (binade emin q - ((prec : ℤ) - 1)))
    * 2 ^ (binade emin q - ((prec : ℤ) - 1))

/-- The rounding of one arithmetic operation on JavaScript numbers (binary64). -/
def round64 (q : ℚ) : ℚ := roundBinary 53 (-1022) q

/-- The rounding of a store into a `Float32Array` cell, `Math.fround` (binary32). -/
def fround (q : ℚ) : ℚ := roundBinary 24 (-126) q

/-! ## Per-frame animator (lines 322-376) -/

/-- Constant `sparkCount` (line 193). -/
def sparkCount : Nat := 1000

/-- Constant `rainCount` (line 210). -/
def rainCount : Nat := 1500

/-- Constant `fireflyCount` (line 228). -/
def fireflyCount : Nat := 50

/-- What `animate` reads and never writes: the host functions `Math.sin`, `Math.cos`,
the values `Math.random()` returns (the `n`-th call returns `random n`), and the buffers
`sparkSpeed`, `rainVel` and `fireflies.geometry.attributes.aRandom.array` filled by the
set-up loops. -/
structure Env where
  sin : ℚ → ℚ
  cos : ℚ → ℚ
  random : Nat → ℚ
  sparkSpeed : Nat → ℚ
  rainVel : Nat → ℚ
  fRandoms : Nat → ℚ

/-- The loop `for (let i = 0; i < n; i++) body(i)`: the body runs for 0, 1, ..., n - 1 in
this order. -/
def forLoop {σ : Type} (body : Nat → σ → σ) : Nat → σ → σ
  | 0, st => st
  | n + 1, st => body n (forLoop body n st)

/-- Body of the sparks loop (lines 336-340), on the position array and the count of
`Math.random()` calls:
`positions[i*3+1] += sparkSpeed[i];
 if (positions[i*3+1] > 10) { positions[i*3+1] = 0; positions[i*3] = (Math.random() - 0.5) * 20; }`
The sum is a double and the cell a `Float32Array` cell (line 195): the test reads the
stored value. -/
def sparkStep (env : Env) (i : Nat) (st : (Nat → ℚ) × Nat) : (Nat → ℚ) × Nat :=
  let positions := Function.update st.1 (i * 3 + 1)
    (fround (round64 (st.1 (i * 3 + 1) + env.sparkSpeed i)))
  if positions (i * 3 + 1) > 10 then
    (Function.update (Function.update positions (i * 3 + 1) 0) (i * 3)
        (fround (round64 (round64 (env.random st.2 - 0.5) * 20))),
      st.2 + 1)
  else (positions, st.2)

/-- Body of the rain loop (lines 347-351):
`rPositions[i*3+1] -= rainVel[i];
 if (rPositions[i*3+1] < -5) { rPositions[i*3+1] = 15; rPositions[i*3] = (Math.random() - 0.5) * 20; }`
The difference is a double and the cell a `Float32Array` cell (line 212): the test reads
the stored value. -/
def rainStep (env : Env) (i : Nat) (st : (Nat → ℚ) × Nat) : (Nat → ℚ) × Nat :=
  let rPositions := Function.update st.1 (i * 3 + 1)
    (fround (round64 (st.1 (i * 3 + 1) - env.rainVel i)))
  if rPositions (i * 3 + 1) < -5 then
    (Function.update (Function.update rPositions (i * 3 + 1) 15) (i * 3)
        (fround (round64 (round64 (env.random st.2 - 0.5) * 20))),
      st.2 + 1)
  else (rPositions, st.2)

/-- Body of the fireflies loop (lines 359-361). -/
def fireflyStep (env : Env) (elapsedTime : ℚ) (i : Nat) (fPositions : Nat → ℚ) : Nat → ℚ :=
  let p1 := Function.update fPositions (i * 3)
    (fPositions (i * 3) + env.sin (elapsedTime + env.fRandoms (i * 3) * 10) * 0.01)
  let p2 := Function.update p1 (i * 3 + 1)
    (p1 (i * 3 + 1) + env.cos (elapsedTime * 0.8 + env.fRandoms (i * 3 + 1) * 10) * 0.01)
  Function.update p2 (i * 3 + 2)
    (p2 (i * 3 + 2) + env.sin (elapsedTime * 0.5 + env.fRandoms (i * 3 + 2) * 10) * 0.01)

/-- Lines 326-327: `uTime` and `particles.rotation.y`. -/
def animateParticles (elapsedTime : ℚ) (s : Scene) : Scene :=
  { s with uTime := elapsedTime, particlesRotationY := elapsedTime * 0.05 }

/-- Lines 328-331: the cocar block. -/
def animateCocar (env : Env) (elapsedTime : ℚ) (s : Scene) : Scene :=
  if s.cocarGroupVisible then
    { s with cocarRotationY := env.sin (elapsedTime * 0.5) * 0.2,
             cocarPositionY := 1 + env.sin elapsedTime * 0.1 }
  else s

/-- Line 332: the forest scan line. -/
def animateForest (env : Env) (elapsedTime : ℚ) (s : Scene) : Scene :=
  if s.forestGroupVisible then { s with uScanHeight := env.sin elapsedTime * 2 + 1 } else s

/-- Lines 333-343: the sparks block; `count` is the loop bound `sparkCount`. -/
def animateSparks (env : Env) (count : Nat) (s : Scene) : Scene :=
  if s.sparksVisible then
    { s with sparkPos := (forLoop (sparkStep env) count (s.sparkPos, s.randomCalls)).1,
             randomCalls := (forLoop (sparkStep env) count (s.sparkPos, s.randomCalls)).2 }
  else s

/-- Lines 344-354: the rain block; `count` is the loop bound `rainCount`. -/
def animateRain (env : Env) (count : Nat) (s : Scene) : Scene :=
  if s.rainVisible then
    { s with rainPos := (forLoop (rainStep env) count (s.rainPos, s.randomCalls)).1,
             randomCalls := (forLoop (rainStep env) count (s.rainPos, s.randomCalls)).2 }
  else s

/-- Lines 355-364: the fireflies block (`typeof fireflies !== 'undefined'` always holds);
`count` is the loop bound `fireflyCount`. -/
def animateFireflies (env : Env) (elapsedTime : ℚ) (count : Nat) (s : Scene) : Scene :=
  { s with fireflyPositions := forLoop (fireflyStep env elapsedTime) count s.fireflyPositions }

/-- Lines 366-369: the pottery block. -/
def animateArtifact (env : Env) (elapsedTime : ℚ) (s : Scene) : Scene :=
  if s.artifactGroupVisible then
    { s with artifactRotationY := s.artifactRotationY + 0.005,
             potteryRotationZ := env.sin (elapsedTime * 0.5) * 0.1 }
  else s

/-- Lines 370-372: the constellation block. -/
def animateConstellation (env : Env) (elapsedTime : ℚ) (s : Scene) : Scene :=
  if s.constellationGroupVisible then
    { s with constellationRotationZ := env.sin (elapsedTime * 0.1) * 0.05 }
  else s

/-- The blocks of `animate` (lines 325-372) in source order, the three loop bounds being
arguments. -/
def animateBlocks (nSparks nRain nFireflies : Nat) (env : Env) (elapsedTime : ℚ)
    (s : Scene) : Scene :=
  animateConstellation env elapsedTime
    (animateArtifact env elapsedTime
      (animateFireflies env elapsedTime nFireflies
        (animateRain env nRain
          (animateSparks env nSparks
            (animateForest env elapsedTime
              (animateCocar env elapsedTime
                (animateParticles elapsedTime s)))))))

/-- The scene updates of one call of `animate` (lines 325-372), `elapsedTime` being the
value `clock.getElapsedTime()` returns in this call. -/
def animate (env : Env) (elapsedTime : ℚ) (s : Scene) : Scene :=
  animateBlocks sparkCount rainCount fireflyCount env elapsedTime s

/-- A run of the render loop: one call of `animate` per elapsed time of the list. -/
def animateAll (env : Env) : List ℚ → Scene → Scene
  | [], s => s
  | t :: ts, s => animateAll env ts (animate env t s)

/-- The height a tick stores for a particle at height `y` that advances by `d`: the double
sum rounded into the `Float32Array` cell. -/
def storedHeight (y d : ℚ) : ℚ :=
  fround (round64 (y + d))

/-- The x a recycled particle gets from the value `r` of `Math.random()`:
`(r - 0.5) * 20` in double arithmetic, rounded into the `Float32Array` cell. -/
def freshX (r : ℚ) : ℚ :=
  fround (round64 (round64 (r - 0.5) * 20))

/-- Whether the particle `i` of a recycled field leaves its range in this tick: the height
stored for it, `pos (i*3+1)` advanced by `delta i`, satisfies `out`. -/
def wraps (delta : Nat → ℚ) (out : ℚ → Bool) (pos : Nat → ℚ) (i : Nat) : Bool :=
  out (storedHeight (pos (i * 3 + 1)) (delta i))

/-- Number of particles below index `n` that leave their range in this tick: the number of
`Math.random()` calls the loop makes before it reaches particle `n`. -/
def wrapsBefore (delta : Nat → ℚ) (out : ℚ → Bool) (pos : Nat → ℚ) : Nat → Nat
  | 0 => 0
  | n + 1 => wrapsBefore delta out pos n + if wraps delta out pos n then 1 else 0

/-- The common shape of the sparks and rain loop bodies: advance the height by `delta i`,
and when the stored height is out of range put it at `reset` and draw a new x. -/
def recycleStep (delta : Nat → ℚ) (out : ℚ → Bool) (reset : ℚ) (random : Nat → ℚ) (i : Nat)
    (st : (Nat → ℚ) × Nat) : (Nat → ℚ) × Nat :=
  let positions := Function.update st.1 (i * 3 + 1) (storedHeight (st.1 (i * 3 + 1)) (delta i))
  if out (positions (i * 3 + 1)) then
    (Function.update (Function.update positions (i * 3 + 1) reset) (i * 3)
        (freshX (random st.2)),
      st.2 + 1)
  else (positions, st.2)

/-- A spark is out of range above 10. -/
def sparkOut (y : ℚ) : Bool := decide (y > 10)

/-- A rain drop is out of range below -5. -/
def rainOut (y : ℚ) : Bool := decide (y < -5)

/-- The `Math.random()` call count when the rain block starts: the sparks block, when it
runs, has made one call per wrapped spark. -/
def rainRandomCalls (env : Env) (s : Scene) : Nat :=
  if s.sparksVisible then
    s.randomCalls + wrapsBefore env.sparkSpeed sparkOut s.sparkPos sparkCount
  else s.randomCalls

/-- An environment for concrete runs: every spark rises by 0.02 and every drop falls by 0.1
per tick, `Math.random()` returns 1/4. The trigonometric functions are stand-ins (right at
elapsed time 0); the heights and the pottery `rotation.y` examined on this environment do
not read them. -/
def demoEnv : Env where
  sin := fun _ => 0
  cos := fun _ => 1
  random := fun _ => 1 / 4
  sparkSpeed := fun _ => 0.02
  rainVel := fun _ => 0.1
  fRandoms := fun _ => 0

/-- A scene for concrete runs: spark 0 is at height 10.05 (cell 1 of the position array),
every other cell is 0; sparks, rain and pottery are shown, the other props hidden. -/
def demoScene : Scene :=
  { initialScene (fun j => if j = 1 then 10.05 else 0) (fun _ => 0) (fun _ => 0) with
    sparksVisible := true, rainVisible := true, artifactGroupVisible := true }

/-- The complementary scene for concrete runs: cocar, forest and constellation are shown,
sparks, rain and pottery hidden. -/
def demoSceneHidden : Scene :=
  { initialScene (fun j => if j = 1 then 10.05 else 0) (fun _ => 0) (fun _ => 0) with
    cocarGroupVisible := true, forestGroupVisible := true, constellationGroupVisible := true }

/-- Two scenes agree on what the per-tick height motion reads and writes: the three
visibility flags, every spark height, every rain height and `artifactGroup.rotation.y`. -/
def SameHeights (s s' : Scene) : Prop :=
  s.sparksVisible = s'.sparksVisible ∧ s.rainVisible = s'.rainVisible ∧
    s.artifactGroupVisible = s'.artifactGroupVisible ∧
    (∀ i, s.sparkPos (i * 3 + 1) = s'.sparkPos (i * 3 + 1)) ∧
    (∀ i, s.rainPos (i * 3 + 1) = s'.rainPos (i * 3 + 1)) ∧
    s.artifactRotationY = s'.artifactRotationY

/-! ## Audio manager (lines 598-688) -/

/-- The keys of `audioFiles` (lines 599-611); `audioElements` holds one `Audio` per key. -/
def audioKeys : List String :=
  ["chapter-origin", "chapter-connection", "chapter-territory", "chapter-artifacts",
    "chapter-resistance", "chapter-fire", "knowledge-stack", "chapter-cosmology",
    "chapter-heroes", "chapter-celebration", "chapter-future"]

/-- Lookup `audioElements[key]`: the `Audio` object of a key, named by its key, `undefined`
(`none`) for any other string. -/
def audioElements (key : String) : Option String :=
  if key ∈ audioKeys then some key else none

/-- The fades the audio manager issues. -/
inductive Fade where
  | fadeOut (audio : String)
  | fadeIn (audio : String)
deriving DecidableEq, Repr

/-- The state of the audio manager: `isMuted`, `currentAudio`, for every `Audio` the target
of the last `gsap.to(audio, { volume })` (its initial `volume` 0 before any fade), and the
fades issued so far, oldest first. -/
structure AudioState where
  isMuted : Bool
  currentAudio : Option String
  targetVolume : String → ℚ
  issued : List Fade

/-- The audio state after the set-up code (lines 613-626). -/
def initialAudio : AudioState where
  isMuted := true
  currentAudio := none
  targetVolume := fun _ => 0
  issued := []

/-- Function `fadeOut(audio)` (lines 647-649). -/
def fadeOut (audio : String) (st : AudioState) : AudioState :=
  { st with targetVolume := Function.update st.targetVolume audio 0,
            issued := st.issued ++ [Fade.fadeOut audio] }

/-- Function `fadeIn(audio)` (lines 651-654). -/
def fadeIn (audio : String) (st : AudioState) : AudioState :=
  { st with targetVolume := Function.update st.targetVolume audio 0.5,
            issued := st.issued ++ [Fade.fadeIn audio] }

/-- Function `playAudio(sectionId)` (lines 656-670). -/
def playAudio (sectionId : String) (st : AudioState) : AudioState :=
  if st.isMuted then st
  else
    match audioElements sectionId with
    | none => st
    | some newAudio =>
      let st1 :=
        match st.currentAudio with
        | some current => if current ≠ newAudio then fadeOut current st else st
        | none => st
      if st1.currentAudio ≠ some newAudio then
        fadeIn newAudio { st1 with currentAudio := some newAudio }
      else st1

/-- Function `getCurrentSection()` (lines 672-676): it returns `null`. -/
def getCurrentSection : Option String := none

/-- Function `toggleSound()` (lines 628-643). -/
def toggleSound (st : AudioState) : AudioState :=
  let st1 := { st with isMuted := !st.isMuted }
  if st1.isMuted then
    match st1.currentAudio with
    | some current => fadeOut current st1
    | none => st1
  else
    match getCurrentSection with
    | some currentSection =>
      if (audioElements currentSection).isSome then playAudio currentSection st1 else st1
    | none => st1

/-- The calls that reach the audio manager: a click on the sound button, or a chapter
trigger calling `playAudio(sectionId)`. -/
inductive AudioCall where
  | toggleSound
  | playAudio (sectionId : String)
deriving DecidableEq, Repr

/-- Run one call. -/
def AudioCall.run : AudioCall → AudioState → AudioState
  | .toggleSound, st => IndigenasSite.toggleSound st
  | .playAudio sectionId, st => IndigenasSite.playAudio sectionId st

/-- Run a sequence of calls, first call first. -/
def runAudio (calls : List AudioCall) (st : AudioState) : AudioState :=
  calls.foldl (fun acc c => c.run acc) st

/-- The audio invariant: an `Audio` with a non-zero target volume is `currentAudio`, and
then sound is unmuted. -/
def AudioInv (st : AudioState) : Prop :=
  ∀ a, st.targetVolume a ≠ 0 → st.currentAudio = some a ∧ st.isMuted = false

/-! ## Evaluation order of the fog-writing triggers -/

/-- Array `chapters` (lines 23-27): the sections in document order. -/
def chapters : List String :=
  ["#chapter-origin", "#chapter-connection", "#chapter-territory", "#chapter-artifacts",
    "#chapter-resistance", "#chapter-fire", "#knowledge-stack", "#chapter-cosmology",
    "#chapter-heroes", "#chapter-celebration", "#chapter-future"]

/-- The scene triggers arranged in document order, that is by the position of their
section in `chapters`. -/
def documentOrder : List Trigger :=
  [chapterArtifacts, chapterResistance, chapterFire, chapterCosmology]

/-- Modelled from the spec: the dispatcher of the scroll-trigger library is not under
src/. Within one tick the triggers are evaluated in a fixed order, given by the list, and
the callbacks each one fires are applied in that order, so the last write to shared state
wins; `fired` gives the callbacks every trigger fires in this tick, by selector. -/
def evaluateTick (order : List Trigger) (fired : String → List Callback) (s : Scene) : Scene :=
  order.foldl (fun acc t => t.fire (fired t.trigger) acc) s

/-- The tick in which the scroll position passes from `#chapter-resistance` into
`#chapter-fire`: the former fires `onLeave`, the latter `onEnter`, no other trigger fires. -/
def resistanceToFire (selector : String) : List Callback :=
  if selector = "#chapter-resistance" then [Callback.onLeave]
  else if selector = "#chapter-fire" then [Callback.onEnter]
  else []

/-! ## Concrete scenes for the trigger handlers -/

/-- The scene after set-up with all particle buffers at 0: every prop hidden, fog density
0.02 and fog colour 0x050505 (line 36). -/
def startScene : Scene :=
  initialScene (fun _ => 0) (fun _ => 0) (fun _ => 0)

/-- The scene inside the resistance chapter, reached from `startScene` by the `onEnter` of
`#chapter-resistance`: rain shown, fog density target 0.05, forest and sparks hidden. -/
def resistanceScene : Scene :=
  chapterResistance.onEnter startScene

/-- The scene after the resistance chapter has been entered and left again: every prop
hidden, fog density target 0.02 and fog colour target (0.02, 0.02, 0.02), the values
written by the `onLeave` of `#chapter-resistance` (line 494). -/
def leftResistanceScene : Scene :=
  chapterResistance.onLeave resistanceScene

/-! ## Render loop (lines 324-376) -/

/-- What one call of `animate` leaves behind: the scene, whether the call returned or
raised, and whether it reached `requestAnimationFrame(animate)` (line 374). -/
structure AnimateResult where
  scene : Scene
  outcome : Except String Unit
  nextFrameRequested : Bool

/-- One call of `animate` (lines 324-375): the scene updates, then
`renderer.render(scene, camera)`, then `requestAnimationFrame(animate)`. The renderer is an
argument: `render s` is `.error e` when it raises `e` on the scene `s`. The function body
has no `try`, so when the renderer raises, the call raises with the scene already updated
and the last statement is not reached. -/
def animateCall (env : Env) (render : Scene → Except String Unit) (elapsedTime : ℚ)
    (s : Scene) : AnimateResult :=
  match render (animate env elapsedTime s) with
  | .error e => ⟨animate env elapsedTime s, .error e, false⟩
  | .ok _ => ⟨animate env elapsedTime s, .ok (), true⟩

/-- Modelled from the spec: the frame scheduling of the browser is not under src/. The
render loop started by `animate()` (line 376): `animate` is called at the elapsed times of
the list, one call per frame, as long as the previous call requested a frame. The result is
the final scene and the number of calls made. -/
def renderLoop (env : Env) (render : Scene → Except String Unit) : List ℚ → Scene → Scene × Nat
  | [], s => (s, 0)
  | t :: ts, s =>
    if (animateCall env render t s).nextFrameRequested then
      ((renderLoop env render ts (animateCall env render t s).scene).1,
        (renderLoop env render ts (animateCall env render t s).scene).2 + 1)
    else ((animateCall env render t s).scene, 1)

/-- A renderer that raises in the frame at elapsed time 0 and works in every other frame. -/
def failsAtZero (s : Scene) : Except String Unit :=
  if s.uTime = 0 then .error "render failed" else .ok ()

/-! ## Slider (lines 529-596) -/

/-- The state of the modal slider: `slides.length`, `currentSlideIndex`, which slides and
which dots carry the class `active`, and the slides whose fade-out tween (line 559) has been
issued but has not completed yet, oldest first: on completion its `onComplete` removes
`active` from the slide it captured. -/
structure Slider where
  slidesLength : Nat
  currentSlideIndex : Int
  slideActive : Int → Bool
  dotActive : Int → Bool
  pendingComplete : List Int

/-- The slider after the set-up code (lines 530-546): `currentSlideIndex` is 0 and dot 0 is
active; which slides carry `active` comes from the markup and is an argument. -/
def sliderAfterSetup (slidesLength : Nat) (markupActive : Int → Bool) : Slider where
  slidesLength := slidesLength
  currentSlideIndex := 0
  slideActive := markupActive
  dotActive := fun i => decide (i = 0)
  pendingComplete := []

/-- Function `updateDots(index)` (lines 548-551). -/
def updateDots (index : Int) (st : Slider) : Slider :=
  { st with dotActive := fun i => decide (i = index) }

/-- Function `goToSlide(index)` (lines 553-566). The fade-out tween of the current slide is
recorded by its pending `onComplete`; the other tweens only animate opacity and position. -/
def goToSlide (index : Int) (st : Slider) : Slider :=
  let index1 := if index < 0 then (st.slidesLength : Int) - 1 else index
  let index2 := if index1 ≥ (st.slidesLength : Int) then 0 else index1
  updateDots index2
    { st with
      pendingComplete := st.pendingComplete ++ [st.currentSlideIndex],
      slideActive := Function.update st.slideActive index2 true,
      currentSlideIndex := index2 }

/-- The click handler of knowledge card `index` (lines 572-583): every slide loses `active`,
the target slide gets it, and the dots follow. -/
def openCard (index : Nat) (st : Slider) : Slider :=
  updateDots index
    { st with currentSlideIndex := index, slideActive := fun i => decide (i = (index : Int)) }

/-- Modelled from the spec: the tween engine is not under src/. All pending fade-out tweens
complete, in the order in which they were issued (they all last 0.5 s): each `onComplete`
runs `currentSlide.classList.remove('active')` on its captured slide. -/
def runCompletions (st : Slider) : Slider :=
  { st with
    slideActive := st.pendingComplete.foldl (fun a i => Function.update a i false) st.slideActive,
    pendingComplete := [] }

/-- The events that call `goToSlide`: a click on dot `index` (line 543), the prev and next
buttons (lines 568-569) and the arrow keys (lines 593-594). -/
inductive SliderEvent where
  | dot (index : Nat)
  | prev
  | next
  | arrowLeft
  | arrowRight
deriving DecidableEq, Repr

/-- The handler of a slider event. -/
def SliderEvent.run : SliderEvent → Slider → Slider
  | .dot index, st => goToSlide index st
  | .prev, st => goToSlide (st.currentSlideIndex - 1) st
  | .next, st => goToSlide (st.currentSlideIndex + 1) st
  | .arrowLeft, st => goToSlide (st.currentSlideIndex - 1) st
  | .arrowRight, st => goToSlide (st.currentSlideIndex + 1) st

/-- A slider with three slides right after knowledge card 0 has been clicked: slide 0 is the
current slide and the only active one, no tween is pending. -/
def sliderOpened : Slider :=
  openCard 0 (sliderAfterSetup 3 (fun _ => false))

/-! ## Cocar and the knowledge section (lines 430-446) -/

/-- The scene together with the tween state of the cocar: the target of the last
`gsap.to(cocarGroup.position, { z })` and the `onComplete` callbacks of tweens that have
been issued but have not completed yet, oldest first. The script passes no `overwrite`
option and never kills a tween, so an issued callback stays pending until it runs. -/
structure CocarStage where
  scene : Scene
  cocarPositionZTarget : ℚ
  pendingComplete : List (Scene → Scene)

/-- Handler `onEnter` of the knowledge-section trigger (line 440). -/
def knowledgeOnEnter (st : CocarStage) : CocarStage :=
  { st with scene := { st.scene with cocarGroupVisible := true }, cocarPositionZTarget := 0 }

/-- Handler `onLeave` of the knowledge-section trigger (line 441). -/
def knowledgeOnLeave (st : CocarStage) : CocarStage :=
  { st with
    cocarPositionZTarget := -10,
    pendingComplete := st.pendingComplete ++ [fun s => { s with cocarGroupVisible := false }] }

/-- Handler `onEnterBack` of the knowledge-section trigger (line 442). -/
def knowledgeOnEnterBack (st : CocarStage) : CocarStage :=
  { st with scene := { st.scene with cocarGroupVisible := true }, cocarPositionZTarget := 0 }

/-- Handler `onLeaveBack` of the knowledge-section trigger (line 443). -/
def knowledgeOnLeaveBack (st : CocarStage) : CocarStage :=
  { st with
    cocarPositionZTarget := -10,
    pendingComplete := st.pendingComplete ++ [fun s => { s with cocarGroupVisible := false }] }

/-- Modelled from the spec: the tween engine is not under src/. All pending tweens of the
cocar complete, in the order in which they were issued (they all last 1 s), and their
`onComplete` callbacks run. -/
def runPending (st : CocarStage) : CocarStage :=
  { st with
    scene := st.pendingComplete.foldl (fun s callback => callback s) st.scene,
    pendingComplete := [] }

/-- The stage while the viewer is inside the knowledge section: the cocar has been shown by
`onEnter` and no tween completion is pending. -/
def insideKnowledge : CocarStage :=
  knowledgeOnEnter ⟨startScene, -10, []⟩

/-! ## Theorems -/

/-- C1: for the `#chapter-fire` trigger, `onEnter` leaves `forestGroup.visible` and
`sparks.visible` true and the fog-density target at 0.1; `onEnterBack` followed by
`onLeaveBack` leaves both flags false and the target at 0.02, from any scene state. -/
theorem chapterFire_enter_and_back (s : Scene) :
    ((chapterFire.onEnter s).forestGroupVisible = true ∧
      (chapterFire.onEnter s).sparksVisible = true ∧
      (chapterFire.onEnter s).fogDensityTarget = 0.1) ∧
    ((chapterFire.onLeaveBack (chapterFire.onEnterBack s)).forestGroupVisible = false ∧
      (chapterFire.onLeaveBack (chapterFire.onEnterBack s)).sparksVisible = false ∧
      (chapterFire.onLeaveBack (chapterFire.onEnterBack s)).fogDensityTarget = 0.02) := by
  simp [chapterFire]

/-! ### Trigger sweeps -/

theorem zone_mono (a b : ℚ) (hab : a ≤ b) {p q : ℚ} (hpq : p ≤ q) :
    (zone a b p).rank ≤ (zone a b q).rank := by
  unfold zone
  split_ifs <;> simp [TriggerState.rank] <;> linarith

theorem crossing_forward (s1 s2 s3 : TriggerState) (h12 : s1.rank ≤ s2.rank)
    (h23 : s2.rank ≤ s3.rank) : crossing s1 s2 ++ crossing s2 s3 = crossing s1 s3 := by
  cases s1 <;> cases s2 <;> cases s3 <;> simp_all [crossing, TriggerState.rank]

theorem crossing_backward (s1 s2 s3 : TriggerState) (h12 : s2.rank ≤ s1.rank)
    (h23 : s3.rank ≤ s2.rank) : crossing s1 s2 ++ crossing s2 s3 = crossing s1 s3 := by
  cases s1 <;> cases s2 <;> cases s3 <;> simp_all [crossing, TriggerState.rank]

theorem crossing_self (st : TriggerState) : crossing st st = [] := by
  cases st <;> rfl

/-- Along a non-decreasing run of samples the callbacks fired are those of the single move
from the first state to the last. -/
theorem sweep_forward (a b : ℚ) (hab : a ≤ b) :
    ∀ (l : List ℚ) (st : TriggerState), l.Sorted (· ≤ ·) →
      (∀ p ∈ l, st.rank ≤ (zone a b p).rank) →
      (sweep a b st l).2 = crossing st (sweep a b st l).1 ∧
        st.rank ≤ (sweep a b st l).1.rank := by
  intro l
  induction l with
  | nil => intro st _ _; simp [sweep, crossing_self]
  | cons p ps ih =>
    intro st hs hall
    have hs2 := List.sorted_cons.mp hs
    have hp : st.rank ≤ (zone a b p).rank := hall p (List.mem_cons_self _ _)
    have hps : ∀ q ∈ ps, (zone a b p).rank ≤ (zone a b q).rank :=
      fun q hq => zone_mono a b hab (hs2.1 q hq)
    obtain ⟨h1, h2⟩ := ih (zone a b p) hs2.2 hps
    simp only [sweep, stepTrigger]
    rw [h1]
    exact ⟨crossing_forward _ _ _ hp h2, le_trans hp h2⟩

/-- Along a non-increasing run of samples the callbacks fired are those of the single move
from the first state to the last. -/
theorem sweep_backward (a b : ℚ) (hab : a ≤ b) :
    ∀ (l : List ℚ) (st : TriggerState), l.Sorted (· ≥ ·) →
      (∀ p ∈ l, (zone a b p).rank ≤ st.rank) →
      (sweep a b st l).2 = crossing st (sweep a b st l).1 ∧
        (sweep a b st l).1.rank ≤ st.rank := by
  intro l
  induction l with
  | nil => intro st _ _; simp [sweep, crossing_self]
  | cons p ps ih =>
    intro st hs hall
    have hs2 := List.sorted_cons.mp hs
    have hp : (zone a b p).rank ≤ st.rank := hall p (List.mem_cons_self _ _)
    have hps : ∀ q ∈ ps, (zone a b q).rank ≤ (zone a b p).rank :=
      fun q hq => zone_mono a b hab (hs2.1 q hq)
    obtain ⟨h1, h2⟩ := ih (zone a b p) hs2.2 hps
    simp only [sweep, stepTrigger]
    rw [h1]
    exact ⟨crossing_backward _ _ _ hp h2, le_trans h2 hp⟩

/-- A non-decreasing run with a sample above the band ends in state After. -/
theorem sweep_forward_final (a b : ℚ) :
    ∀ (l : List ℚ) (st : TriggerState), l.Sorted (· ≤ ·) → (∃ p ∈ l, b < p) → a ≤ b →
      (sweep a b st l).1 = .after := by
  intro l
  induction l with
  | nil => intro st _ h; obtain ⟨p, hp, _⟩ := h; simp at hp
  | cons p ps ih =>
    intro st hs hex hab
    have hs2 := List.sorted_cons.mp hs
    simp only [sweep, stepTrigger]
    cases ps with
    | nil =>
      obtain ⟨q, hq, hbq⟩ := hex
      simp at hq
      subst hq
      simp only [sweep, zone]
      rw [if_neg (by linarith), if_neg (by linarith)]
    | cons r rs =>
      apply ih _ hs2.2 _ hab
      obtain ⟨q, hq, hbq⟩ := hex
      rcases List.mem_cons.mp hq with h | h
      · subst h
        exact ⟨r, List.mem_cons_self _ _, lt_of_lt_of_le hbq (hs2.1 r (List.mem_cons_self _ _))⟩
      · exact ⟨q, h, hbq⟩

/-- A non-increasing run with a sample below the band ends in state Before. -/
theorem sweep_backward_final (a b : ℚ) :
    ∀ (l : List ℚ) (st : TriggerState), l.Sorted (· ≥ ·) → (∃ p ∈ l, p < a) →
      (sweep a b st l).1 = .before := by
  intro l
  induction l with
  | nil => intro st _ h; obtain ⟨p, hp, _⟩ := h; simp at hp
  | cons p ps ih =>
    intro st hs hex
    have hs2 := List.sorted_cons.mp hs
    simp only [sweep, stepTrigger]
    cases ps with
    | nil =>
      obtain ⟨q, hq, hqa⟩ := hex
      simp at hq
      subst hq
      simp only [sweep, zone]
      rw [if_pos hqa]
    | cons r rs =>
      apply ih _ hs2.2
      obtain ⟨q, hq, hqa⟩ := hex
      rcases List.mem_cons.mp hq with h | h
      · subst h
        exact ⟨r, List.mem_cons_self _ _, lt_of_le_of_lt (hs2.1 r (List.mem_cons_self _ _)) hqa⟩
      · exact ⟨q, h, hqa⟩

theorem sweep_append (a b : ℚ) :
    ∀ (l1 l2 : List ℚ) (st : TriggerState),
      sweep a b st (l1 ++ l2) =
        ((sweep a b (sweep a b st l1).1 l2).1,
          (sweep a b st l1).2 ++ (sweep a b (sweep a b st l1).1 l2).2) := by
  intro l1
  induction l1 with
  | nil => intro l2 st; simp [sweep]
  | cons p ps ih => intro l2 st; simp [sweep, ih]

/-- C2: for a trigger with activation band `[a, b]`, a non-decreasing run of scroll samples
that gets above the band followed by a non-increasing run that gets below it fires exactly
`onEnter`, `onLeave`, `onEnterBack`, `onLeaveBack`, in that order and once each; the
trigger is After between the two runs and Before at the end; and on each of the four
chapter triggers of lines 468-510 the scene effect is that of the four registered handlers
applied in this order. -/
theorem chapter_trigger_sweep_callbacks (a b : ℚ) (hab : a ≤ b) (fwd bwd : List ℚ)
    (hf : fwd.Sorted (· ≤ ·)) (hfb : ∃ p ∈ fwd, b < p)
    (hb : bwd.Sorted (· ≥ ·)) (hba : ∃ q ∈ bwd, q < a) :
    (sweep a b .before (fwd ++ bwd)).2
        = [Callback.onEnter, Callback.onLeave, Callback.onEnterBack, Callback.onLeaveBack] ∧
      (sweep a b .before fwd).1 = .after ∧
      (sweep a b .before (fwd ++ bwd)).1 = .before ∧
      ∀ t ∈ sceneTriggers, ∀ s : Scene,
        t.fire (sweep a b .before (fwd ++ bwd)).2 s
          = t.onLeaveBack (t.onEnterBack (t.onLeave (t.onEnter s))) := by
  have h1 := sweep_forward a b hab fwd .before hf (fun p _ => Nat.zero_le _)
  have h2 := sweep_forward_final a b fwd .before hf hfb hab
  have h3 := sweep_backward a b hab bwd .after hb (fun p _ => by
    cases zone a b p <;> simp [TriggerState.rank])
  have h4 := sweep_backward_final a b bwd .after hb hba
  have hcs : (sweep a b .before (fwd ++ bwd)).2
      = [Callback.onEnter, Callback.onLeave, Callback.onEnterBack, Callback.onLeaveBack] := by
    rw [sweep_append]
    simp only [h1.1, h2, h3.1, h4]
    rfl
  refine ⟨hcs, h2, ?_, ?_⟩
  · rw [sweep_append]
    simp only [h2, h4]
  · intro t _ s
    rw [hcs]
    rfl

/-- A concrete sweep for C2: band `[1, 2]`, samples 0, 3/2, 3 going down the page and
3/2, 0 coming back. -/
theorem chapter_trigger_sweep_callbacks_witness :
    (sweep 1 2 .before ([0, 3/2, 3] ++ [3/2, 0])).2
        = [Callback.onEnter, Callback.onLeave, Callback.onEnterBack, Callback.onLeaveBack] ∧
      (sweep 1 2 .before [0, 3/2, 3]).1 = .after ∧
      (sweep 1 2 .before ([0, 3/2, 3] ++ [3/2, 0])).1 = .before ∧
      ∀ t ∈ sceneTriggers, ∀ s : Scene,
        t.fire (sweep 1 2 .before ([0, 3/2, 3] ++ [3/2, 0])).2 s
          = t.onLeaveBack (t.onEnterBack (t.onLeave (t.onEnter s))) :=
  chapter_trigger_sweep_callbacks 1 2 (by norm_num) [0, 3/2, 3] [3/2, 0]
    (by simp [List.Sorted]; norm_num) ⟨3, by simp, by norm_num⟩
    (by simp [List.Sorted]; norm_num) ⟨0, by simp, by norm_num⟩

/-! ### Timeline layout -/

theorem to_known (tl : Timeline) (k : Keyframe) (label : String) (pos : ℚ)
    (h : tl.labels.lookup label = some pos) :
    tl.to k label = ⟨tl.labels, tl.tweens ++ [⟨pos, k⟩]⟩ := by
  simp [Timeline.to, h]

theorem to_fresh (tl : Timeline) (k : Keyframe) (label : String)
    (h : tl.labels.lookup label = none) :
    tl.to k label = ⟨tl.labels ++ [(label, tl.duration)], tl.tweens ++ [⟨tl.duration, k⟩]⟩ := by
  simp [Timeline.to, h]

theorem duration_snoc (ls : List (String × ℚ)) (ts : List Tween) (t : Tween) :
    (Timeline.mk ls (ts ++ [t])).duration
      = max (Timeline.mk ls ts).duration (t.start + t.keyframe.duration) := by
  simp [Timeline.duration, List.foldl_append]

theorem lookup_snoc_fresh (label : String) (d : ℚ) :
    ∀ ls : List (String × ℚ), ls.lookup label = none →
      (ls ++ [(label, d)]).lookup label = some d := by
  intro ls
  induction ls with
  | nil => intro _; simp [List.lookup]
  | cons x xs ih =>
    intro h
    obtain ⟨k, v⟩ := x
    simp only [List.lookup, List.cons_append] at h ⊢
    split at h
    · exact absurd h (by simp)
    · exact ih h

theorem foldl_to_known (label : String) (pos : ℚ) :
    ∀ (ks : List Keyframe) (tl : Timeline), tl.labels.lookup label = some pos →
      (ks.foldl (fun acc k => acc.to k label) tl).labels = tl.labels ∧
        (ks.foldl (fun acc k => acc.to k label) tl).duration
          = ks.foldl (fun m k => max m (pos + k.duration)) tl.duration := by
  intro ks
  induction ks with
  | nil => intro tl _; simp
  | cons k ks ih =>
    intro tl h
    simp only [List.foldl_cons]
    rw [to_known tl k label pos h]
    obtain ⟨h1, h2⟩ := ih ⟨tl.labels, tl.tweens ++ [⟨pos, k⟩]⟩ h
    refine ⟨h1, ?_⟩
    rw [h2, duration_snoc]

theorem addGroup_summary (tl : Timeline) (g : KeyframeGroup) (hne : g.keyframes ≠ []) :
    (tl.addGroup g).summary = layoutStep tl.summary g := by
  unfold Timeline.addGroup layoutStep Timeline.summary
  cases hl : tl.labels.lookup g.label with
  | some pos =>
    obtain ⟨h1, h2⟩ := foldl_to_known g.label pos g.keyframes tl hl
    simp only [h1, h2]
  | none =>
    cases hk : g.keyframes with
    | nil => exact absurd hk hne
    | cons k ks =>
      simp only [List.foldl_cons]
      rw [to_fresh tl k g.label hl]
      obtain ⟨h1, h2⟩ := foldl_to_known g.label tl.duration ks
        ⟨tl.labels ++ [(g.label, tl.duration)], tl.tweens ++ [⟨tl.duration, k⟩]⟩
        (lookup_snoc_fresh g.label tl.duration tl.labels hl)
      simp only [h1, h2, duration_snoc]
      rfl

theorem foldl_addGroup_summary :
    ∀ (gs : List KeyframeGroup) (tl : Timeline), (∀ g ∈ gs, g.keyframes ≠ []) →
      (gs.foldl Timeline.addGroup tl).summary = gs.foldl layoutStep tl.summary := by
  intro gs
  induction gs with
  | nil => intro tl _; rfl
  | cons g gs ih =>
    intro tl h
    simp only [List.foldl_cons]
    rw [ih _ (fun g' hg' => h g' (List.mem_cons_of_mem _ hg')),
      addGroup_summary tl g (h g (List.mem_cons_self _ _))]



theorem foldl_max_unit (p : ℚ) :
    ∀ (ks : List Keyframe) (d : ℚ), (∀ k ∈ ks, k.duration = 1) → ks ≠ [] →
      ks.foldl (fun m k => max m (p + k.duration)) d = max d (p + 1) := by
  intro ks
  induction ks with
  | nil => intro d _ h; exact absurd rfl h
  | cons k ks ih =>
    intro d hd _
    simp only [List.foldl_cons, hd k (List.mem_cons_self _ _)]
    cases hks : ks with
    | nil => simp
    | cons k' ks' =>
      rw [← hks, ih (max d (p + 1)) (fun x hx => hd x (List.mem_cons_of_mem _ hx))
        (by simp [hks])]
      simp

theorem layoutStep_unit (ls : List (String × ℚ)) (d : ℚ) (g : KeyframeGroup)
    (hd : ∀ k ∈ g.keyframes, k.duration = 1) (hne : g.keyframes ≠ []) :
    layoutStep (ls, d) g =
      match ls.lookup g.label with
      | some pos => (ls, max d (pos + 1))
      | none => (ls ++ [(g.label, d)], d + 1) := by
  have e1 : max d (d + 1) = d + 1 := max_eq_right (by linarith)
  unfold layoutStep
  cases h : ls.lookup g.label with
  | some pos => simp [h, foldl_max_unit pos g.keyframes d hd hne]
  | none => simp [h, foldl_max_unit d g.keyframes d hd hne, e1]

theorem scrollTimeline_summary (c : Colors) :
    (scrollTimeline c).summary =
      ([("step1", 0), ("step2", 1), ("step_artifacts", 2), ("step3", 3), ("step_fire", 4),
        ("step_cosmology", 5), ("step_reset_cam", 6), ("step_heroes", 7), ("step4", 8),
        ("step5", 9)], 10) := by
  unfold scrollTimeline
  rw [foldl_addGroup_summary _ _ (by simp [keyframeGroups, colorKeyframe])]
  simp only [keyframeGroups, List.foldl_cons, List.foldl_nil, Timeline.summary,
    Timeline.duration]
  simp [layoutStep_unit, List.lookup, colorKeyframe, formFactorKeyframe, cameraKeyframe,
    cameraRotationKeyframe]
  norm_num

theorem scrollTimeline_labels (c : Colors) :
    (scrollTimeline c).labels =
      [("step1", 0), ("step2", 1), ("step_artifacts", 2), ("step3", 3), ("step_fire", 4),
        ("step_cosmology", 5), ("step_reset_cam", 6), ("step_heroes", 7), ("step4", 8),
        ("step5", 9)] := by
  have h := scrollTimeline_summary c
  simp only [Timeline.summary, Prod.mk.injEq] at h
  exact h.1

/-- The ranges of the eleven groups on the finished timeline. -/
theorem groupRanges_eq (c : Colors) :
    groupRanges c =
      [("origin", 0, 1), ("connection", 0, 1), ("territory", 1, 2), ("artifacts", 2, 3),
        ("resistance", 3, 4), ("fire", 4, 5), ("cosmology", 5, 6), ("camera reset", 6, 7),
        ("heroes", 7, 8), ("celebration", 8, 9), ("future", 9, 10)] := by
  simp only [groupRanges, groupEnd, groupStart, scrollTimeline_labels]
  simp [keyframeGroups, List.lookup, colorKeyframe, formFactorKeyframe, cameraKeyframe,
    cameraRotationKeyframe]
  norm_num

/-- C4, as stated, fails on the script: the connection group is positioned at the label
`step1`, which the origin group has already placed at 0, so it starts at 0 and not at 1
where the origin group ends. -/
theorem groups_not_consecutive : ¬ Consecutive (groupRanges hexColors) := by
  rw [groupRanges_eq]
  simp [Consecutive]

/-- C4, amended: origin and connection share the label `step1` and both occupy the range
from 0 to 1; from connection onwards every group starts exactly where the previous group
ends, the ten groups occupying the unit ranges from 0 to 10 in authored order on a
timeline of length 10. -/
theorem groups_consecutive_from_connection (c : Colors) :
    (groupRanges c).head? = some ("origin", 0, 1) ∧
      (groupRanges c).tail.head? = some ("connection", 0, 1) ∧
      Consecutive (groupRanges c).tail ∧
      (groupRanges c).tail.map (fun x => x.2) =
        (List.range 10).map (fun k => ((k : ℚ), (k : ℚ) + 1)) ∧
      (scrollTimeline c).duration = 10 := by
  have hd : (scrollTimeline c).duration = 10 := by
    have h := scrollTimeline_summary c
    simp only [Timeline.summary, Prod.mk.injEq] at h
    exact h.2
  rw [groupRanges_eq]
  refine ⟨rfl, rfl, ?_, ?_, hd⟩
  · simp [Consecutive]
  · simp [List.range, List.range.loop]
    norm_num

/-! ### Machine rounding -/

theorem roundHalfEven_ge (x : ℚ) (m : ℤ) (h : (m : ℚ) ≤ x) : m ≤ roundHalfEven x := by
  have hf : m ≤ ⌊x⌋ := Int.le_floor.mpr h
  unfold roundHalfEven
  split_ifs <;> omega

theorem roundHalfEven_le (x : ℚ) (m : ℤ) (h : x ≤ (m : ℚ)) : roundHalfEven x ≤ m := by
  have hf : ⌊x⌋ ≤ m := Int.cast_le.mp (le_trans (Int.floor_le x) h)
  rcases lt_or_eq_of_le hf with hlt | heq
  · unfold roundHalfEven
    split_ifs <;> omega
  · have hx : x - ⌊x⌋ < 1 / 2 := by
      have : x ≤ (⌊x⌋ : ℚ) := by rw [heq]; exact h
      have h2 := Int.floor_le x
      have : x - ⌊x⌋ = 0 := by linarith
      rw [this]; norm_num
    unfold roundHalfEven
    rw [if_pos hx]
    exact hf

theorem binade_eq_log (emin : ℤ) (q : ℚ) (h : emin < binade emin q) :
    binade emin q = Int.log 2 |q| := by
  unfold binade at h ⊢
  rcases le_total (Int.log 2 |q|) emin with h1 | h1
  · rw [max_eq_right h1] at h
    exact absurd h (lt_irrefl _)
  · exact max_eq_left h1

/-- Above the least exponent the binade starts at or below `|q|`. -/
theorem zpow_binade_le (emin : ℤ) (q : ℚ) (hq : q ≠ 0) (h : emin < binade emin q) :
    (2 : ℚ) ^ binade emin q ≤ |q| := by
  rw [binade_eq_log emin q h]
  have := Int.zpow_log_le_self (b := 2) (r := |q|) (by norm_num) (abs_pos.mpr hq)
  simpa using this

theorem roundBinary_nonneg (prec : ℕ) (emin : ℤ) (q : ℚ) (hq : 0 ≤ q) :
    0 ≤ roundBinary prec emin q := by
  unfold roundBinary
  have hu : (0 : ℚ) < 2 ^ (binade emin q - ((prec : ℤ) - 1)) := by positivity
  have h0 : (0 : ℤ) ≤ roundHalfEven (q / 2 ^ (binade emin q - ((prec : ℤ) - 1))) :=
    roundHalfEven_ge _ 0 (by simpa using div_nonneg hq hu.le)
  have : (0 : ℚ) ≤ (roundHalfEven (q / 2 ^ (binade emin q - ((prec : ℤ) - 1))) : ℚ) := by
    exact_mod_cast h0
  positivity

theorem roundBinary_nonpos (prec : ℕ) (emin : ℤ) (q : ℚ) (hq : q ≤ 0) :
    roundBinary prec emin q ≤ 0 := by
  unfold roundBinary
  have hu : (0 : ℚ) < 2 ^ (binade emin q - ((prec : ℤ) - 1)) := by positivity
  have h0 : roundHalfEven (q / 2 ^ (binade emin q - ((prec : ℤ) - 1))) ≤ (0 : ℤ) :=
    roundHalfEven_le _ 0 (by simpa using div_nonpos_of_nonpos_of_nonneg hq hu.le)
  have : (roundHalfEven (q / 2 ^ (binade emin q - ((prec : ℤ) - 1))) : ℚ) ≤ 0 := by
    exact_mod_cast h0
  exact mul_nonpos_of_nonpos_of_nonneg this hu.le

/-- A multiple `k * 2 ^ j` is a whole number of units of every binade at or below
`j + prec - 1`. -/
theorem grid_multiple (k : ℕ) (j e : ℤ) (prec : ℕ) (h : e - ((prec : ℤ) - 1) ≤ j) :
    (((k : ℤ) * 2 ^ (j - (e - ((prec : ℤ) - 1))).toNat : ℤ) : ℚ)
        * 2 ^ (e - ((prec : ℤ) - 1)) = (k : ℚ) * 2 ^ j := by
  have hd : (0 : ℤ) ≤ j - (e - ((prec : ℤ) - 1)) := by omega
  have h2 : ((2 : ℚ) ^ (j - (e - ((prec : ℤ) - 1))).toNat)
      = (2 : ℚ) ^ (j - (e - ((prec : ℤ) - 1))) := by
    rw [← zpow_natCast, Int.toNat_of_nonneg hd]
  push_cast
  rw [h2, mul_assoc, ← zpow_add₀ (by norm_num : (2 : ℚ) ≠ 0)]
  congr 2
  ring

theorem top_multiple (e : ℤ) (prec : ℕ) (hprec : 1 ≤ prec) :
    (((2 : ℤ) ^ (prec - 1) : ℤ) : ℚ) * 2 ^ (e - ((prec : ℤ) - 1)) = 2 ^ e := by
  have hc : ((prec - 1 : ℕ) : ℤ) = (prec : ℤ) - 1 := by omega
  push_cast
  rw [← zpow_natCast, hc, ← zpow_add₀ (by norm_num : (2 : ℚ) ≠ 0)]
  congr 1
  ring

theorem roundBinary_ge_multiple (prec : ℕ) (emin : ℤ) (q : ℚ) (m : ℤ)
    (h : (m : ℚ) * 2 ^ (binade emin q - ((prec : ℤ) - 1)) ≤ q) :
    (m : ℚ) * 2 ^ (binade emin q - ((prec : ℤ) - 1)) ≤ roundBinary prec emin q := by
  unfold roundBinary
  have hu : (0 : ℚ) < 2 ^ (binade emin q - ((prec : ℤ) - 1)) := by positivity
  have h1 : m ≤ roundHalfEven (q / 2 ^ (binade emin q - ((prec : ℤ) - 1))) :=
    roundHalfEven_ge _ m ((le_div_iff₀ hu).mpr h)
  have h2 : (m : ℚ) ≤ (roundHalfEven (q / 2 ^ (binade emin q - ((prec : ℤ) - 1))) : ℚ) := by
    exact_mod_cast h1
  exact mul_le_mul_of_nonneg_right h2 hu.le

theorem roundBinary_le_multiple (prec : ℕ) (emin : ℤ) (q : ℚ) (m : ℤ)
    (h : q ≤ (m : ℚ) * 2 ^ (binade emin q - ((prec : ℤ) - 1))) :
    roundBinary prec emin q ≤ (m : ℚ) * 2 ^ (binade emin q - ((prec : ℤ) - 1)) := by
  unfold roundBinary
  have hu : (0 : ℚ) < 2 ^ (binade emin q - ((prec : ℤ) - 1)) := by positivity
  have h1 : roundHalfEven (q / 2 ^ (binade emin q - ((prec : ℤ) - 1))) ≤ m :=
    roundHalfEven_le _ m ((div_le_iff₀ hu).mpr h)
  have h2 : (roundHalfEven (q / 2 ^ (binade emin q - ((prec : ℤ) - 1))) : ℚ) ≤ (m : ℚ) := by
    exact_mod_cast h1
  exact mul_le_mul_of_nonneg_right h2 hu.le

/-- A number `k * 2 ^ j` of the format is below the start of every binade from
`j + prec` on. -/
theorem lt_zpow_of_binade (k : ℕ) (j e : ℤ) (prec : ℕ) (hk : k < 2 ^ prec)
    (h : j < e - ((prec : ℤ) - 1)) : (k : ℚ) * 2 ^ j < 2 ^ e := by
  have h1 : (k : ℚ) < 2 ^ (prec : ℤ) := by
    rw [zpow_natCast]
    exact_mod_cast hk
  have h2 : (0 : ℚ) < 2 ^ j := by positivity
  calc (k : ℚ) * 2 ^ j < 2 ^ (prec : ℤ) * 2 ^ j := mul_lt_mul_of_pos_right h1 h2
    _ = 2 ^ ((prec : ℤ) + j) := (zpow_add₀ (by norm_num : (2 : ℚ) ≠ 0) _ _).symm
    _ ≤ 2 ^ e := zpow_le_zpow_right₀ (by norm_num) (by omega)

/-- Rounding never goes below a number of the format that the argument reaches. -/
theorem roundBinary_ge (prec : ℕ) (emin : ℤ) (k : ℕ) (j : ℤ) (q : ℚ) (hprec : 1 ≤ prec)
    (hk : k < 2 ^ prec) (hj : emin - ((prec : ℤ) - 1) ≤ j) (hq : (k : ℚ) * 2 ^ j ≤ q) :
    (k : ℚ) * 2 ^ j ≤ roundBinary prec emin q := by
  have hB : (0 : ℚ) ≤ (k : ℚ) * 2 ^ j := by positivity
  rcases le_or_lt (binade emin q - ((prec : ℤ) - 1)) j with hc | hc
  · have hm := grid_multiple k j (binade emin q) prec hc
    rw [← hm]
    apply roundBinary_ge_multiple
    rw [hm]
    exact hq
  · rcases eq_or_lt_of_le (le_trans hB hq) with h0 | hpos
    · have hr := roundBinary_nonneg prec emin q (le_of_eq h0)
      rw [← h0] at hq
      exact le_trans hq hr
    · have he : emin < binade emin q := by omega
      have h2 := zpow_binade_le emin q (ne_of_gt hpos) he
      rw [abs_of_pos hpos] at h2
      have h3 := roundBinary_ge_multiple prec emin q (2 ^ (prec - 1))
        (by rw [top_multiple _ prec hprec]; exact h2)
      rw [top_multiple _ prec hprec] at h3
      exact le_trans (le_of_lt (lt_zpow_of_binade k j _ prec hk hc)) h3

/-- Rounding never goes above a number of the format that bounds the argument. -/
theorem roundBinary_le (prec : ℕ) (emin : ℤ) (k : ℕ) (j : ℤ) (q : ℚ)
    (hk : k < 2 ^ prec) (hj : emin - ((prec : ℤ) - 1) ≤ j) (hq : q ≤ (k : ℚ) * 2 ^ j) :
    roundBinary prec emin q ≤ (k : ℚ) * 2 ^ j := by
  have hB : (0 : ℚ) ≤ (k : ℚ) * 2 ^ j := by positivity
  rcases le_or_lt q 0 with hneg | hpos
  · exact le_trans (roundBinary_nonpos prec emin q hneg) hB
  · rcases le_or_lt (binade emin q - ((prec : ℤ) - 1)) j with hc | hc
    · have hm := grid_multiple k j (binade emin q) prec hc
      rw [← hm]
      apply roundBinary_le_multiple
      rw [hm]
      exact hq
    · have he : emin < binade emin q := by omega
      have h2 := zpow_binade_le emin q (ne_of_gt hpos) he
      rw [abs_of_pos hpos] at h2
      have h3 := lt_zpow_of_binade k j _ prec hk hc
      linarith

/-- Rounding never goes below the negative of a number of the format that the argument
reaches. -/
theorem roundBinary_ge_neg (prec : ℕ) (emin : ℤ) (k : ℕ) (j : ℤ) (q : ℚ)
    (hk : k < 2 ^ prec) (hj : emin - ((prec : ℤ) - 1) ≤ j) (hq : -((k : ℚ) * 2 ^ j) ≤ q) :
    -((k : ℚ) * 2 ^ j) ≤ roundBinary prec emin q := by
  have hB : (0 : ℚ) ≤ (k : ℚ) * 2 ^ j := by positivity
  rcases le_or_lt 0 q with hnn | hneg
  · have := roundBinary_nonneg prec emin q hnn
    linarith
  · rcases le_or_lt (binade emin q - ((prec : ℤ) - 1)) j with hc | hc
    · have hm := grid_multiple k j (binade emin q) prec hc
      have h3 := roundBinary_ge_multiple prec emin q
        (-((k : ℤ) * 2 ^ (j - (binade emin q - ((prec : ℤ) - 1))).toNat))
        (by rw [Int.cast_neg, neg_mul, hm]; exact hq)
      rw [Int.cast_neg, neg_mul, hm] at h3
      exact h3
    · have he : emin < binade emin q := by omega
      have h2 := zpow_binade_le emin q (ne_of_lt hneg) he
      rw [abs_of_neg hneg] at h2
      have h3 := lt_zpow_of_binade k j _ prec hk hc
      linarith

/-- The stored height never goes above a Float32 number that bounds the exact sum. -/
theorem storedHeight_le (k : ℕ) (j : ℤ) (y d : ℚ) (hk : k < 2 ^ 24) (hj : -149 ≤ j)
    (h : y + d ≤ (k : ℚ) * 2 ^ j) : storedHeight y d ≤ (k : ℚ) * 2 ^ j := by
  unfold storedHeight fround round64
  apply roundBinary_le 24 (-126) k j _ hk (by push_cast; omega)
  exact roundBinary_le 53 (-1022) k j _ (lt_trans hk (by norm_num)) (by push_cast; omega) h

/-- The stored height never goes below a Float32 number that the exact sum reaches. -/
theorem storedHeight_ge (k : ℕ) (j : ℤ) (y d : ℚ) (hk : k < 2 ^ 24) (hj : -149 ≤ j)
    (h : (k : ℚ) * 2 ^ j ≤ y + d) : (k : ℚ) * 2 ^ j ≤ storedHeight y d := by
  unfold storedHeight fround round64
  apply roundBinary_ge 24 (-126) k j _ (by norm_num) hk (by push_cast; omega)
  exact roundBinary_ge 53 (-1022) k j _ (by norm_num) (lt_trans hk (by norm_num))
    (by push_cast; omega) h

/-- The stored height never goes below the negative of a Float32 number that the exact sum
reaches. -/
theorem storedHeight_ge_neg (k : ℕ) (j : ℤ) (y d : ℚ) (hk : k < 2 ^ 24) (hj : -149 ≤ j)
    (h : -((k : ℚ) * 2 ^ j) ≤ y + d) : -((k : ℚ) * 2 ^ j) ≤ storedHeight y d := by
  unfold storedHeight fround round64
  apply roundBinary_ge_neg 24 (-126) k j _ hk (by push_cast; omega)
  exact roundBinary_ge_neg 53 (-1022) k j _ (lt_trans hk (by norm_num)) (by push_cast; omega) h

/-- A sum that does not exceed 10 is stored as a height that does not exceed 10. -/
theorem storedHeight_le_ten (y d : ℚ) (h : y + d ≤ 10) : storedHeight y d ≤ 10 := by
  have := storedHeight_le 10 0 y d (by norm_num) (by norm_num) (by simpa using h)
  simpa using this

/-- A sum that is not below -5 is stored as a height that is not below -5. -/
theorem storedHeight_ge_neg_five (y d : ℚ) (h : -5 ≤ y + d) : -5 ≤ storedHeight y d := by
  have := storedHeight_ge_neg 5 0 y d (by norm_num) (by norm_num) (by simpa using h)
  simpa using this

/-- A sum of at least 10.05 is stored as a height above 10. -/
theorem storedHeight_gt_ten (y d : ℚ) (h : 10.05 ≤ y + d) : 10 < storedHeight y d := by
  have h1 : ((321 : ℕ) : ℚ) * 2 ^ (-5 : ℤ) ≤ y + d := by
    have : ((321 : ℕ) : ℚ) * 2 ^ (-5 : ℤ) ≤ 10.05 := by norm_num
    exact le_trans this h
  have h2 := storedHeight_ge 321 (-5) y d (by norm_num) (by norm_num) h1
  have h3 : (10 : ℚ) < ((321 : ℕ) : ℚ) * 2 ^ (-5 : ℤ) := by norm_num
  exact lt_of_lt_of_le h3 h2

/-- A number less than half a unit away from an integer rounds to that integer. -/
theorem roundHalfEven_eq (x : ℚ) (m : ℤ) (h1 : (m : ℚ) - 1 / 2 < x) (h2 : x < m + 1 / 2) :
    roundHalfEven x = m := by
  rcases le_or_lt (m : ℚ) x with hge | hlt
  · have hf : ⌊x⌋ = m := Int.floor_eq_iff.mpr ⟨hge, by linarith⟩
    unfold roundHalfEven
    rw [hf, if_pos (by linarith)]
  · have hf : ⌊x⌋ = m - 1 :=
      Int.floor_eq_iff.mpr ⟨by push_cast; linarith, by push_cast; linarith⟩
    unfold roundHalfEven
    rw [hf, if_neg (by push_cast; linarith), if_pos (by push_cast; linarith)]
    ring

/-- The binade of a number between `2 ^ e` and `2 ^ (e + 1)`. -/
theorem binade_eq (emin e : ℤ) (q : ℚ) (he : emin ≤ e) (h1 : (2 : ℚ) ^ e ≤ |q|)
    (h2 : |q| < 2 ^ (e + 1)) : binade emin q = e := by
  have hpos : 0 < |q| := lt_of_lt_of_le (by positivity) h1
  have ha : e ≤ Int.log 2 |q| :=
    (Int.zpow_le_iff_le_log (b := 2) (by norm_num) hpos).mp (by simpa using h1)
  have hb : Int.log 2 |q| < e + 1 :=
    (Int.lt_zpow_iff_log_lt (b := 2) (by norm_num) hpos).mp (by simpa using h2)
  unfold binade
  rw [max_eq_left (by omega)]
  omega

/-- Rounding of a number less than half a unit away from a number of its binade. -/
theorem roundBinary_eq (prec : ℕ) (emin e : ℤ) (q : ℚ) (m : ℤ) (he : binade emin q = e)
    (h1 : ((m : ℚ) - 1 / 2) * 2 ^ (e - ((prec : ℤ) - 1)) < q)
    (h2 : q < ((m : ℚ) + 1 / 2) * 2 ^ (e - ((prec : ℤ) - 1))) :
    roundBinary prec emin q = (m : ℚ) * 2 ^ (e - ((prec : ℤ) - 1)) := by
  unfold roundBinary
  rw [he]
  have hu : (0 : ℚ) < 2 ^ (e - ((prec : ℤ) - 1)) := by positivity
  rw [roundHalfEven_eq _ m ((lt_div_iff₀ hu).mpr h1) ((div_lt_iff₀ hu).mpr h2)]

/-- The sum of the Float32 numbers 9.96875 and 1/32 + 2^-25 exceeds 10 as a double and is
stored as exactly 10. -/
theorem storedHeight_spark_at_bound :
    storedHeight (319 / 32) (1 / 32 + 1 / 2 ^ 25) = 10 := by
  have hq : (319 / 32 : ℚ) + (1 / 32 + 1 / 2 ^ 25) = 10 + 1 / 2 ^ 25 := by norm_num
  have hb64 : binade (-1022) (10 + 1 / 2 ^ 25 : ℚ) = 3 :=
    binade_eq _ 3 _ (by norm_num) (by rw [abs_of_pos (by norm_num)]; norm_num)
      (by rw [abs_of_pos (by norm_num)]; norm_num)
  have hb32 : binade (-126) (10 + 1 / 2 ^ 25 : ℚ) = 3 :=
    binade_eq _ 3 _ (by norm_num) (by rw [abs_of_pos (by norm_num)]; norm_num)
      (by rw [abs_of_pos (by norm_num)]; norm_num)
  have h64 : round64 (10 + 1 / 2 ^ 25) = 10 + 1 / 2 ^ 25 := by
    unfold round64
    rw [roundBinary_eq 53 (-1022) 3 _ (10 * 2 ^ 49 + 2 ^ 24) hb64 (by norm_num) (by norm_num)]
    norm_num
  have h32 : fround (10 + 1 / 2 ^ 25) = 10 := by
    unfold fround
    rw [roundBinary_eq 24 (-126) 3 _ (10 * 2 ^ 20) hb32 (by norm_num) (by norm_num)]
    norm_num
  unfold storedHeight
  rw [hq, h64, h32]

/-- The difference of the Float32 numbers -4.875 and 1/8 + 2^-26 is below -5 as a double and
is stored as exactly -5. -/
theorem storedHeight_drop_at_bound :
    storedHeight (-39 / 8) (-(1 / 8 + 1 / 2 ^ 26)) = -5 := by
  have hq : (-39 / 8 : ℚ) + -(1 / 8 + 1 / 2 ^ 26) = -(5 + 1 / 2 ^ 26) := by norm_num
  have hb64 : binade (-1022) (-(5 + 1 / 2 ^ 26) : ℚ) = 2 :=
    binade_eq _ 2 _ (by norm_num) (by rw [abs_neg, abs_of_pos (by norm_num)]; norm_num)
      (by rw [abs_neg, abs_of_pos (by norm_num)]; norm_num)
  have hb32 : binade (-126) (-(5 + 1 / 2 ^ 26) : ℚ) = 2 :=
    binade_eq _ 2 _ (by norm_num) (by rw [abs_neg, abs_of_pos (by norm_num)]; norm_num)
      (by rw [abs_neg, abs_of_pos (by norm_num)]; norm_num)
  have h64 : round64 (-(5 + 1 / 2 ^ 26)) = -(5 + 1 / 2 ^ 26) := by
    unfold round64
    rw [roundBinary_eq 53 (-1022) 2 _ (-(5 * 2 ^ 50 + 2 ^ 24)) hb64 (by norm_num)
      (by norm_num)]
    norm_num
  have h32 : fround (-(5 + 1 / 2 ^ 26)) = -5 := by
    unfold fround
    rw [roundBinary_eq 24 (-126) 2 _ (-(5 * 2 ^ 21)) hb32 (by norm_num) (by norm_num)]
    norm_num
  unfold storedHeight
  rw [hq, h64, h32]

/-! ### Particle loops -/

theorem sparkStep_eq_recycleStep (env : Env) :
    sparkStep env = recycleStep env.sparkSpeed sparkOut 0 env.random := by
  funext i st
  simp [sparkStep, recycleStep, sparkOut, storedHeight, freshX]

theorem rainStep_eq_recycleStep (env : Env) :
    rainStep env = recycleStep (fun i => - env.rainVel i) rainOut 15 env.random := by
  funext i st
  simp [rainStep, recycleStep, rainOut, storedHeight, freshX, sub_eq_add_neg]

/-- What the recycle loop leaves after its first `n` iterations: the call count, the
height and the x of every particle below `n`, and every other cell untouched. -/
theorem forLoop_recycleStep (delta : Nat → ℚ) (out : ℚ → Bool) (reset : ℚ)
    (random : Nat → ℚ) (pos : Nat → ℚ) (c : Nat) (n : Nat) :
    (forLoop (recycleStep delta out reset random) n (pos, c)).2
        = c + wrapsBefore delta out pos n ∧
      (∀ i, i < n →
        (forLoop (recycleStep delta out reset random) n (pos, c)).1 (i * 3 + 1)
          = if wraps delta out pos i then reset
            else storedHeight (pos (i * 3 + 1)) (delta i)) ∧
      (∀ i, i < n →
        (forLoop (recycleStep delta out reset random) n (pos, c)).1 (i * 3)
          = if wraps delta out pos i then
              freshX (random (c + wrapsBefore delta out pos i))
            else pos (i * 3)) ∧
      (∀ j, (∀ i, i < n → j ≠ i * 3 ∧ j ≠ i * 3 + 1) →
        (forLoop (recycleStep delta out reset random) n (pos, c)).1 j = pos j) := by
  induction n with
  | zero => simp [forLoop, wrapsBefore]
  | succ n ih =>
    obtain ⟨hc, hy, hx, hrest⟩ := ih
    have hyn : (forLoop (recycleStep delta out reset random) n (pos, c)).1 (n * 3 + 1)
        = pos (n * 3 + 1) := hrest _ (fun i hi => ⟨by omega, by omega⟩)
    have hxn : (forLoop (recycleStep delta out reset random) n (pos, c)).1 (n * 3)
        = pos (n * 3) := hrest _ (fun i hi => ⟨by omega, by omega⟩)
    simp only [forLoop, recycleStep, wrapsBefore, Function.update_same, hyn, hc]
    by_cases hw : wraps delta out pos n = true
    · have hw2 : out (storedHeight (pos (n * 3 + 1)) (delta n)) = true := hw
      simp only [hw, hw2, if_true]
      refine ⟨rfl, ?_, ?_, ?_⟩
      · intro i hi
        rcases Nat.lt_succ_iff_lt_or_eq.mp hi with h | h
        · rw [Function.update_noteq (by omega), Function.update_noteq (by omega),
            Function.update_noteq (by omega)]
          exact hy i h
        · subst h
          rw [Function.update_noteq (by omega), Function.update_same, if_pos hw]
      · intro i hi
        rcases Nat.lt_succ_iff_lt_or_eq.mp hi with h | h
        · rw [Function.update_noteq (by omega), Function.update_noteq (by omega),
            Function.update_noteq (by omega)]
          exact hx i h
        · subst h
          rw [Function.update_same, if_pos hw]
      · intro j hj
        have h1 := hj n (Nat.lt_succ_self n)
        rw [Function.update_noteq h1.1, Function.update_noteq h1.2,
          Function.update_noteq h1.2]
        exact hrest j (fun i hi => hj i (Nat.lt_succ_of_lt hi))
    · have hw' : wraps delta out pos n = false := by simpa using hw
      have hw2 : out (storedHeight (pos (n * 3 + 1)) (delta n)) = false := hw'
      simp only [hw', hw2, Bool.false_eq_true, if_false, Nat.add_zero]
      refine ⟨trivial, ?_, ?_, ?_⟩
      · intro i hi
        rcases Nat.lt_succ_iff_lt_or_eq.mp hi with h | h
        · rw [Function.update_noteq (by omega)]
          exact hy i h
        · subst h
          rw [Function.update_same]
          simp [hw']
      · intro i hi
        rcases Nat.lt_succ_iff_lt_or_eq.mp hi with h | h
        · rw [Function.update_noteq (by omega)]
          exact hx i h
        · subst h
          rw [Function.update_noteq (by omega), hxn]
          simp [hw']
      · intro j hj
        have h1 := hj n (Nat.lt_succ_self n)
        rw [Function.update_noteq h1.2]
        exact hrest j (fun i hi => hj i (Nat.lt_succ_of_lt hi))

/-! ### Frame lemmas for `animate` -/

theorem animateBlocks_flags (nS nR nF : Nat) (env : Env) (t : ℚ) (s : Scene) :
    (animateBlocks nS nR nF env t s).cocarGroupVisible = s.cocarGroupVisible ∧
      (animateBlocks nS nR nF env t s).forestGroupVisible = s.forestGroupVisible ∧
      (animateBlocks nS nR nF env t s).sparksVisible = s.sparksVisible ∧
      (animateBlocks nS nR nF env t s).rainVisible = s.rainVisible ∧
      (animateBlocks nS nR nF env t s).artifactGroupVisible = s.artifactGroupVisible ∧
      (animateBlocks nS nR nF env t s).constellationGroupVisible
        = s.constellationGroupVisible := by
  cases h1 : s.cocarGroupVisible <;> cases h2 : s.forestGroupVisible <;>
    cases h3 : s.sparksVisible <;> cases h4 : s.rainVisible <;>
    cases h5 : s.artifactGroupVisible <;> cases h6 : s.constellationGroupVisible <;>
    simp [animateBlocks, animateConstellation, animateArtifact, animateFireflies,
      animateRain, animateSparks, animateForest, animateCocar, animateParticles,
      h1, h2, h3, h4, h5, h6]

theorem animateBlocks_sparkPos (nS nR nF : Nat) (env : Env) (t : ℚ) (s : Scene) :
    (animateBlocks nS nR nF env t s).sparkPos =
      if s.sparksVisible then (forLoop (sparkStep env) nS (s.sparkPos, s.randomCalls)).1
      else s.sparkPos := by
  cases h1 : s.cocarGroupVisible <;> cases h2 : s.forestGroupVisible <;>
    cases h3 : s.sparksVisible <;> cases h4 : s.rainVisible <;>
    cases h5 : s.artifactGroupVisible <;> cases h6 : s.constellationGroupVisible <;>
    simp [animateBlocks, animateConstellation, animateArtifact, animateFireflies,
      animateRain, animateSparks, animateForest, animateCocar, animateParticles,
      h1, h2, h3, h4, h5, h6]

theorem animateBlocks_rainPos (nS nR nF : Nat) (env : Env) (t : ℚ) (s : Scene) :
    (animateBlocks nS nR nF env t s).rainPos =
      if s.rainVisible then
        (forLoop (rainStep env) nR
          (s.rainPos,
            if s.sparksVisible then (forLoop (sparkStep env) nS (s.sparkPos, s.randomCalls)).2
            else s.randomCalls)).1
      else s.rainPos := by
  cases h1 : s.cocarGroupVisible <;> cases h2 : s.forestGroupVisible <;>
    cases h3 : s.sparksVisible <;> cases h4 : s.rainVisible <;>
    cases h5 : s.artifactGroupVisible <;> cases h6 : s.constellationGroupVisible <;>
    simp [animateBlocks, animateConstellation, animateArtifact, animateFireflies,
      animateRain, animateSparks, animateForest, animateCocar, animateParticles,
      h1, h2, h3, h4, h5, h6]

theorem animateBlocks_scalars (nS nR nF : Nat) (env : Env) (t : ℚ) (s : Scene) :
    (animateBlocks nS nR nF env t s).uTime = t ∧
      (animateBlocks nS nR nF env t s).particlesRotationY = t * 0.05 ∧
      (animateBlocks nS nR nF env t s).cocarRotationY
        = (if s.cocarGroupVisible then env.sin (t * 0.5) * 0.2 else s.cocarRotationY) ∧
      (animateBlocks nS nR nF env t s).cocarPositionY
        = (if s.cocarGroupVisible then 1 + env.sin t * 0.1 else s.cocarPositionY) ∧
      (animateBlocks nS nR nF env t s).uScanHeight
        = (if s.forestGroupVisible then env.sin t * 2 + 1 else s.uScanHeight) ∧
      (animateBlocks nS nR nF env t s).artifactRotationY
        = (if s.artifactGroupVisible then s.artifactRotationY + 0.005
            else s.artifactRotationY) ∧
      (animateBlocks nS nR nF env t s).potteryRotationZ
        = (if s.artifactGroupVisible then env.sin (t * 0.5) * 0.1
            else s.potteryRotationZ) ∧
      (animateBlocks nS nR nF env t s).constellationRotationZ
        = (if s.constellationGroupVisible then env.sin (t * 0.1) * 0.05
            else s.constellationRotationZ) ∧
      (animateBlocks nS nR nF env t s).fireflyPositions
        = forLoop (fireflyStep env t) nF s.fireflyPositions ∧
      (animateBlocks nS nR nF env t s).fogDensityTarget = s.fogDensityTarget ∧
      (animateBlocks nS nR nF env t s).fogColorTarget = s.fogColorTarget := by
  cases h1 : s.cocarGroupVisible <;> cases h2 : s.forestGroupVisible <;>
    cases h3 : s.sparksVisible <;> cases h4 : s.rainVisible <;>
    cases h5 : s.artifactGroupVisible <;> cases h6 : s.constellationGroupVisible <;>
    simp [animateBlocks, animateConstellation, animateArtifact, animateFireflies,
      animateRain, animateSparks, animateForest, animateCocar, animateParticles,
      h1, h2, h3, h4, h5, h6]

theorem animate_flags (env : Env) (t : ℚ) (s : Scene) :
    (animate env t s).cocarGroupVisible = s.cocarGroupVisible ∧
      (animate env t s).forestGroupVisible = s.forestGroupVisible ∧
      (animate env t s).sparksVisible = s.sparksVisible ∧
      (animate env t s).rainVisible = s.rainVisible ∧
      (animate env t s).artifactGroupVisible = s.artifactGroupVisible ∧
      (animate env t s).constellationGroupVisible = s.constellationGroupVisible :=
  animateBlocks_flags sparkCount rainCount fireflyCount env t s

theorem animate_sparkPos (env : Env) (t : ℚ) (s : Scene) :
    (animate env t s).sparkPos =
      if s.sparksVisible then
        (forLoop (sparkStep env) sparkCount (s.sparkPos, s.randomCalls)).1
      else s.sparkPos :=
  animateBlocks_sparkPos sparkCount rainCount fireflyCount env t s

theorem animate_rainPos (env : Env) (t : ℚ) (s : Scene) :
    (animate env t s).rainPos =
      if s.rainVisible then
        (forLoop (rainStep env) rainCount
          (s.rainPos,
            if s.sparksVisible then
              (forLoop (sparkStep env) sparkCount (s.sparkPos, s.randomCalls)).2
            else s.randomCalls)).1
      else s.rainPos :=
  animateBlocks_rainPos sparkCount rainCount fireflyCount env t s

theorem animate_scalars (env : Env) (t : ℚ) (s : Scene) :
    (animate env t s).uTime = t ∧
      (animate env t s).particlesRotationY = t * 0.05 ∧
      (animate env t s).cocarRotationY
        = (if s.cocarGroupVisible then env.sin (t * 0.5) * 0.2 else s.cocarRotationY) ∧
      (animate env t s).cocarPositionY
        = (if s.cocarGroupVisible then 1 + env.sin t * 0.1 else s.cocarPositionY) ∧
      (animate env t s).uScanHeight
        = (if s.forestGroupVisible then env.sin t * 2 + 1 else s.uScanHeight) ∧
      (animate env t s).artifactRotationY
        = (if s.artifactGroupVisible then s.artifactRotationY + 0.005
            else s.artifactRotationY) ∧
      (animate env t s).potteryRotationZ
        = (if s.artifactGroupVisible then env.sin (t * 0.5) * 0.1
            else s.potteryRotationZ) ∧
      (animate env t s).constellationRotationZ
        = (if s.constellationGroupVisible then env.sin (t * 0.1) * 0.05
            else s.constellationRotationZ) ∧
      (animate env t s).fireflyPositions
        = forLoop (fireflyStep env t) fireflyCount s.fireflyPositions ∧
      (animate env t s).fogDensityTarget = s.fogDensityTarget ∧
      (animate env t s).fogColorTarget = s.fogColorTarget :=
  animateBlocks_scalars sparkCount rainCount fireflyCount env t s

/-- The sparks of a visible field after one tick, particle by particle. -/
theorem animate_spark (env : Env) (t : ℚ) (s : Scene) (hv : s.sparksVisible = true)
    (i : Nat) (hi : i < sparkCount) :
    (animate env t s).sparkPos (i * 3 + 1)
        = (if storedHeight (s.sparkPos (i * 3 + 1)) (env.sparkSpeed i) > 10 then 0
            else storedHeight (s.sparkPos (i * 3 + 1)) (env.sparkSpeed i)) ∧
      (animate env t s).sparkPos (i * 3)
        = (if storedHeight (s.sparkPos (i * 3 + 1)) (env.sparkSpeed i) > 10 then
            freshX (env.random
              (s.randomCalls + wrapsBefore env.sparkSpeed sparkOut s.sparkPos i))
           else s.sparkPos (i * 3)) ∧
      (animate env t s).sparkPos (i * 3 + 2) = s.sparkPos (i * 3 + 2) := by
  rw [animate_sparkPos, if_pos hv, sparkStep_eq_recycleStep]
  obtain ⟨_, hy, hx, hrest⟩ :=
    forLoop_recycleStep env.sparkSpeed sparkOut 0 env.random s.sparkPos s.randomCalls
      sparkCount
  refine ⟨?_, ?_, hrest _ (fun j _ => ⟨by omega, by omega⟩)⟩
  · rw [hy i hi]
    simp [wraps, sparkOut]
  · rw [hx i hi]
    simp [wraps, sparkOut]

/-- The drops of a visible rain field after one tick, drop by drop. -/
theorem animate_rain (env : Env) (t : ℚ) (s : Scene) (hv : s.rainVisible = true)
    (i : Nat) (hi : i < rainCount) :
    (animate env t s).rainPos (i * 3 + 1)
        = (if storedHeight (s.rainPos (i * 3 + 1)) (- env.rainVel i) < -5 then 15
            else storedHeight (s.rainPos (i * 3 + 1)) (- env.rainVel i)) ∧
      (animate env t s).rainPos (i * 3)
        = (if storedHeight (s.rainPos (i * 3 + 1)) (- env.rainVel i) < -5 then
            freshX (env.random (rainRandomCalls env s
              + wrapsBefore (fun k => - env.rainVel k) rainOut s.rainPos i))
           else s.rainPos (i * 3)) ∧
      (animate env t s).rainPos (i * 3 + 2) = s.rainPos (i * 3 + 2) := by
  have hc : (if s.sparksVisible then
        (forLoop (sparkStep env) sparkCount (s.sparkPos, s.randomCalls)).2
      else s.randomCalls) = rainRandomCalls env s := by
    unfold rainRandomCalls
    split
    · rw [sparkStep_eq_recycleStep]
      exact (forLoop_recycleStep env.sparkSpeed sparkOut 0 env.random s.sparkPos
        s.randomCalls sparkCount).1
    · rfl
  rw [animate_rainPos, if_pos hv, hc, rainStep_eq_recycleStep]
  obtain ⟨_, hy, hx, hrest⟩ :=
    forLoop_recycleStep (fun k => - env.rainVel k) rainOut 15 env.random s.rainPos
      (rainRandomCalls env s) rainCount
  refine ⟨?_, ?_, hrest _ (fun j _ => ⟨by omega, by omega⟩)⟩
  · rw [hy i hi]
    simp [wraps, rainOut]
  · rw [hx i hi]
    simp [wraps, rainOut]

/-! ### Spark wrap -/

/-- C5, as stated, fails on the code: spark 0 at height 10.05 with speed 0.02 is put at
height 0 by the tick, not at the leftover overshoot 0 + (10.05 + 0.02 - 10). -/
theorem spark_wrap_drops_overshoot :
    demoScene.sparksVisible = true ∧
      demoScene.sparkPos (0 * 3 + 1) = 10.05 ∧ demoEnv.sparkSpeed 0 = 0.02 ∧
      (animate demoEnv 0 demoScene).sparkPos (0 * 3 + 1) = 0 ∧
      (animate demoEnv 0 demoScene).sparkPos (0 * 3 + 1) ≠ 0 + (10.05 + 0.02 - 10) := by
  have h := (animate_spark demoEnv 0 demoScene rfl 0 (by norm_num [sparkCount])).1
  have hy : demoScene.sparkPos (0 * 3 + 1) = 10.05 := by simp [demoScene, initialScene]
  have hv : demoEnv.sparkSpeed 0 = 0.02 := rfl
  rw [hy, hv] at h
  have h0 : (animate demoEnv 0 demoScene).sparkPos (0 * 3 + 1) = 0 := by
    rw [h, if_pos (storedHeight_gt_ten _ _ (by norm_num))]
  refine ⟨rfl, hy, hv, h0, ?_⟩
  rw [h0]
  norm_num

/-- C5, amended: in a visible spark field every spark whose advanced height, as stored in
its Float32 cell (`storedHeight y s`, the double sum `y + s` rounded to single precision),
exceeds 10, in particular a spark at `y = 10.05` with speed `s ≥ 0`, is put by the tick at
height exactly 0 (the overshoot is dropped), with x the stored value of
`(Math.random() - 0.5) * 20` for the next unused random value, and not at `y + s`. -/
theorem spark_wrap_resets_to_zero (env : Env) (t : ℚ) (s : Scene)
    (hv : s.sparksVisible = true) (i : Nat) (hi : i < sparkCount)
    (hw : storedHeight (s.sparkPos (i * 3 + 1)) (env.sparkSpeed i) > 10 ∨
      (s.sparkPos (i * 3 + 1) = 10.05 ∧ 0 ≤ env.sparkSpeed i)) :
    (animate env t s).sparkPos (i * 3 + 1) = 0 ∧
      (animate env t s).sparkPos (i * 3)
        = freshX (env.random
            (s.randomCalls + wrapsBefore env.sparkSpeed sparkOut s.sparkPos i)) ∧
      (animate env t s).sparkPos (i * 3 + 1) ≠ s.sparkPos (i * 3 + 1) + env.sparkSpeed i := by
  obtain ⟨hy, hx, _⟩ := animate_spark env t s hv i hi
  have hgt : storedHeight (s.sparkPos (i * 3 + 1)) (env.sparkSpeed i) > 10 := by
    rcases hw with h | ⟨h10, hs⟩
    · exact h
    · apply storedHeight_gt_ten
      rw [h10]
      exact le_add_of_nonneg_right hs
  rw [hy, hx, if_pos hgt, if_pos hgt]
  refine ⟨rfl, rfl, ?_⟩
  intro h0
  have hle : s.sparkPos (i * 3 + 1) + env.sparkSpeed i ≤ 10 := by
    rw [← h0]; norm_num
  exact absurd hgt (not_lt.mpr (storedHeight_le_ten _ _ hle))

/-- The amended C5 at spark 0 of the demonstration scene: height 10.05, speed 0.02. -/
theorem spark_wrap_resets_to_zero_witness :
    (animate demoEnv 0 demoScene).sparkPos (0 * 3 + 1) = 0 ∧
      (animate demoEnv 0 demoScene).sparkPos (0 * 3)
        = freshX (demoEnv.random
            (demoScene.randomCalls
              + wrapsBefore demoEnv.sparkSpeed sparkOut demoScene.sparkPos 0)) ∧
      (animate demoEnv 0 demoScene).sparkPos (0 * 3 + 1)
        ≠ demoScene.sparkPos (0 * 3 + 1) + demoEnv.sparkSpeed 0 :=
  spark_wrap_resets_to_zero demoEnv 0 demoScene rfl 0 (by norm_num [sparkCount])
    (Or.inr ⟨by simp [demoScene, initialScene], by norm_num [demoEnv]⟩)

/-- The wrap test reads the stored height, not the double sum: a spark at 9.96875 with
speed 1/32 + 2^-25 (both Float32 numbers) has a sum above 10 that is stored as 10, so the
tick leaves it at height 10 with its x, and does not wrap it. -/
theorem spark_stored_at_bound_stays (env : Env) (t : ℚ) (s : Scene)
    (hv : s.sparksVisible = true) (i : Nat) (hi : i < sparkCount)
    (hy : s.sparkPos (i * 3 + 1) = 319 / 32) (hs : env.sparkSpeed i = 1 / 32 + 1 / 2 ^ 25) :
    s.sparkPos (i * 3 + 1) + env.sparkSpeed i > 10 ∧
      (animate env t s).sparkPos (i * 3 + 1) = 10 ∧
      (animate env t s).sparkPos (i * 3) = s.sparkPos (i * 3) := by
  obtain ⟨h1, h2, _⟩ := animate_spark env t s hv i hi
  rw [hy, hs, storedHeight_spark_at_bound] at h1 h2
  refine ⟨by rw [hy, hs]; norm_num, ?_, ?_⟩
  · rw [h1, if_neg (lt_irrefl _)]
  · rw [h2, if_neg (lt_irrefl _)]

/-- The same for rain: a drop at -4.875 with velocity 1/8 + 2^-26 has a difference below -5
that is stored as -5, so the tick leaves it at height -5 with its x. -/
theorem drop_stored_at_bound_stays (env : Env) (t : ℚ) (s : Scene)
    (hv : s.rainVisible = true) (i : Nat) (hi : i < rainCount)
    (hy : s.rainPos (i * 3 + 1) = -39 / 8) (hs : env.rainVel i = 1 / 8 + 1 / 2 ^ 26) :
    s.rainPos (i * 3 + 1) - env.rainVel i < -5 ∧
      (animate env t s).rainPos (i * 3 + 1) = -5 ∧
      (animate env t s).rainPos (i * 3) = s.rainPos (i * 3) := by
  obtain ⟨h1, h2, _⟩ := animate_rain env t s hv i hi
  rw [hy, hs, storedHeight_drop_at_bound] at h1 h2
  refine ⟨by rw [hy, hs]; norm_num, ?_, ?_⟩
  · rw [h1, if_neg (lt_irrefl _)]
  · rw [h2, if_neg (lt_irrefl _)]

/-! ### Per-particle recycling -/

/-- C6: in one tick every spark `i` of a visible spark field (and every drop `i` of a
visible rain field) gets a height that is a function of its own previous height and own
speed only, an x that is its previous x or, when it wraps, the stored value of
`(Math.random() - 0.5) * 20` for its own draw, and keeps its z; the wrap test reads the
height stored in the particle's Float32 cell (`storedHeight`, the double sum rounded to
single precision); a particle whose advanced height `y + v` (for a drop `y - v`) does not
cross the bound keeps its x and moves by exactly its own speed, its cell holding the stored
sum; and its new height is the same in every other scene that agrees with this one on that
particle's height, whatever the other particles do. -/
theorem particle_recycling_per_particle (env : Env) (t : ℚ) (s : Scene) (i : Nat) :
    (s.sparksVisible = true → i < sparkCount →
      (animate env t s).sparkPos (i * 3 + 1)
          = (if storedHeight (s.sparkPos (i * 3 + 1)) (env.sparkSpeed i) > 10 then 0
              else storedHeight (s.sparkPos (i * 3 + 1)) (env.sparkSpeed i)) ∧
        (animate env t s).sparkPos (i * 3)
          = (if storedHeight (s.sparkPos (i * 3 + 1)) (env.sparkSpeed i) > 10 then
              freshX (env.random
                (s.randomCalls + wrapsBefore env.sparkSpeed sparkOut s.sparkPos i))
             else s.sparkPos (i * 3)) ∧
        (animate env t s).sparkPos (i * 3 + 2) = s.sparkPos (i * 3 + 2) ∧
        (s.sparkPos (i * 3 + 1) + env.sparkSpeed i ≤ 10 →
          (animate env t s).sparkPos (i * 3 + 1)
            = fround (round64 (s.sparkPos (i * 3 + 1) + env.sparkSpeed i)) ∧
          (animate env t s).sparkPos (i * 3) = s.sparkPos (i * 3)) ∧
        (∀ (t' : ℚ) (s' : Scene), s'.sparksVisible = true →
          s'.sparkPos (i * 3 + 1) = s.sparkPos (i * 3 + 1) →
          (animate env t' s').sparkPos (i * 3 + 1) = (animate env t s).sparkPos (i * 3 + 1))) ∧
    (s.rainVisible = true → i < rainCount →
      (animate env t s).rainPos (i * 3 + 1)
          = (if storedHeight (s.rainPos (i * 3 + 1)) (- env.rainVel i) < -5 then 15
              else storedHeight (s.rainPos (i * 3 + 1)) (- env.rainVel i)) ∧
        (animate env t s).rainPos (i * 3)
          = (if storedHeight (s.rainPos (i * 3 + 1)) (- env.rainVel i) < -5 then
              freshX (env.random (rainRandomCalls env s
                + wrapsBefore (fun k => - env.rainVel k) rainOut s.rainPos i))
             else s.rainPos (i * 3)) ∧
        (animate env t s).rainPos (i * 3 + 2) = s.rainPos (i * 3 + 2) ∧
        (s.rainPos (i * 3 + 1) - env.rainVel i ≥ -5 →
          (animate env t s).rainPos (i * 3 + 1)
            = fround (round64 (s.rainPos (i * 3 + 1) - env.rainVel i)) ∧
          (animate env t s).rainPos (i * 3) = s.rainPos (i * 3)) ∧
        (∀ (t' : ℚ) (s' : Scene), s'.rainVisible = true →
          s'.rainPos (i * 3 + 1) = s.rainPos (i * 3 + 1) →
          (animate env t' s').rainPos (i * 3 + 1) = (animate env t s).rainPos (i * 3 + 1))) := by
  constructor
  · intro hv hi
    obtain ⟨hy, hx, hz⟩ := animate_spark env t s hv i hi
    refine ⟨hy, hx, hz, ?_, ?_⟩
    · intro hle
      have hst := storedHeight_le_ten _ _ hle
      rw [hy, hx, if_neg (not_lt.mpr hst), if_neg (not_lt.mpr hst)]
      exact ⟨rfl, rfl⟩
    · intro t' s' hv' hsame
      rw [hy, (animate_spark env t' s' hv' i hi).1, hsame]
  · intro hv hi
    obtain ⟨hy, hx, hz⟩ := animate_rain env t s hv i hi
    refine ⟨hy, hx, hz, ?_, ?_⟩
    · intro hge
      have hst := storedHeight_ge_neg_five (s.rainPos (i * 3 + 1)) (- env.rainVel i)
        (by rw [← sub_eq_add_neg]; exact hge)
      rw [hy, hx, if_neg (not_lt.mpr hst), if_neg (not_lt.mpr hst)]
      refine ⟨?_, rfl⟩
      rw [storedHeight, sub_eq_add_neg]
    · intro t' s' hv' hsame
      rw [hy, (animate_rain env t' s' hv' i hi).1, hsame]

/-- C6 at spark 1 and drop 0 of the demonstration scene: neither crosses its bound while
spark 0 wraps, and both keep their x and move by their own speed. -/
theorem particle_recycling_per_particle_witness :
    ((animate demoEnv 0 demoScene).sparkPos (1 * 3 + 1)
        = fround (round64 (demoScene.sparkPos (1 * 3 + 1) + demoEnv.sparkSpeed 1)) ∧
      (animate demoEnv 0 demoScene).sparkPos (1 * 3) = demoScene.sparkPos (1 * 3)) ∧
    ((animate demoEnv 0 demoScene).rainPos (0 * 3 + 1)
        = fround (round64 (demoScene.rainPos (0 * 3 + 1) - demoEnv.rainVel 0)) ∧
      (animate demoEnv 0 demoScene).rainPos (0 * 3) = demoScene.rainPos (0 * 3)) ∧
    (animate demoEnv 1 demoScene).sparkPos (1 * 3 + 1)
      = (animate demoEnv 0 demoScene).sparkPos (1 * 3 + 1) :=
  ⟨((particle_recycling_per_particle demoEnv 0 demoScene 1).1 rfl
      (by norm_num [sparkCount])).2.2.2.1
      (by norm_num [demoScene, demoEnv, initialScene]),
    ((particle_recycling_per_particle demoEnv 0 demoScene 0).2 rfl
      (by norm_num [rainCount])).2.2.2.1
      (by norm_num [demoScene, demoEnv, initialScene]),
    ((particle_recycling_per_particle demoEnv 0 demoScene 1).1 rfl
      (by norm_num [sparkCount])).2.2.2.2 1 demoScene rfl rfl⟩

/-! ### Visibility gating -/

/-- C7: a tick of `animate` leaves the animated state of each of cocarGroup, forestGroup,
sparks, rain, artifactGroup and constellationGroup unchanged when its `visible` flag is
false, and updates it when the flag is true (cocar sway, scan height, every spark and every
drop advanced or recycled, pottery spin, constellation tilt); the particle field and the
fireflies, which are never hidden, are updated in every tick. -/
theorem animate_updates_only_visible (env : Env) (t : ℚ) (s : Scene) :
    (s.cocarGroupVisible = false →
        (animate env t s).cocarRotationY = s.cocarRotationY ∧
        (animate env t s).cocarPositionY = s.cocarPositionY) ∧
      (s.forestGroupVisible = false → (animate env t s).uScanHeight = s.uScanHeight) ∧
      (s.sparksVisible = false → (animate env t s).sparkPos = s.sparkPos) ∧
      (s.rainVisible = false → (animate env t s).rainPos = s.rainPos) ∧
      (s.artifactGroupVisible = false →
        (animate env t s).artifactRotationY = s.artifactRotationY ∧
        (animate env t s).potteryRotationZ = s.potteryRotationZ) ∧
      (s.constellationGroupVisible = false →
        (animate env t s).constellationRotationZ = s.constellationRotationZ) ∧
      (s.cocarGroupVisible = true →
        (animate env t s).cocarRotationY = env.sin (t * 0.5) * 0.2 ∧
        (animate env t s).cocarPositionY = 1 + env.sin t * 0.1) ∧
      (s.forestGroupVisible = true → (animate env t s).uScanHeight = env.sin t * 2 + 1) ∧
      (s.sparksVisible = true → ∀ i, i < sparkCount →
        (animate env t s).sparkPos (i * 3 + 1)
          = (if storedHeight (s.sparkPos (i * 3 + 1)) (env.sparkSpeed i) > 10 then 0
              else storedHeight (s.sparkPos (i * 3 + 1)) (env.sparkSpeed i))) ∧
      (s.rainVisible = true → ∀ i, i < rainCount →
        (animate env t s).rainPos (i * 3 + 1)
          = (if storedHeight (s.rainPos (i * 3 + 1)) (- env.rainVel i) < -5 then 15
              else storedHeight (s.rainPos (i * 3 + 1)) (- env.rainVel i))) ∧
      (s.artifactGroupVisible = true →
        (animate env t s).artifactRotationY = s.artifactRotationY + 0.005 ∧
        (animate env t s).potteryRotationZ = env.sin (t * 0.5) * 0.1) ∧
      (s.constellationGroupVisible = true →
        (animate env t s).constellationRotationZ = env.sin (t * 0.1) * 0.05) ∧
      (animate env t s).uTime = t ∧
      (animate env t s).particlesRotationY = t * 0.05 ∧
      (animate env t s).fireflyPositions
        = forLoop (fireflyStep env t) fireflyCount s.fireflyPositions := by
  obtain ⟨hu, hp, hcr, hcp, hsh, har, hpz, hcz, hff, _, _⟩ := animate_scalars env t s
  refine ⟨?_, ?_, ?_, ?_, ?_, ?_, ?_, ?_, ?_, ?_, ?_, ?_, hu, hp, hff⟩
  · intro h; rw [hcr, hcp]; simp [h]
  · intro h; rw [hsh]; simp [h]
  · intro h; rw [animate_sparkPos]; simp [h]
  · intro h; rw [animate_rainPos]; simp [h]
  · intro h; rw [har, hpz]; simp [h]
  · intro h; rw [hcz]; simp [h]
  · intro h; rw [hcr, hcp]; simp [h]
  · intro h; rw [hsh]; simp [h]
  · intro h i hi; exact (animate_spark env t s h i hi).1
  · intro h i hi; exact (animate_rain env t s h i hi).1
  · intro h; rw [har, hpz]; simp [h]
  · intro h; rw [hcz]; simp [h]

/-- C7 on the two demonstration scenes: the hidden props keep their state, the shown ones
are updated. -/
theorem animate_updates_only_visible_witness :
    (((animate demoEnv 0 demoScene).cocarRotationY = demoScene.cocarRotationY ∧
        (animate demoEnv 0 demoScene).cocarPositionY = demoScene.cocarPositionY) ∧
      (animate demoEnv 0 demoScene).uScanHeight = demoScene.uScanHeight ∧
      (animate demoEnv 0 demoScene).constellationRotationZ
        = demoScene.constellationRotationZ) ∧
    ((animate demoEnv 0 demoSceneHidden).sparkPos = demoSceneHidden.sparkPos ∧
      (animate demoEnv 0 demoSceneHidden).rainPos = demoSceneHidden.rainPos ∧
      ((animate demoEnv 0 demoSceneHidden).artifactRotationY
          = demoSceneHidden.artifactRotationY ∧
        (animate demoEnv 0 demoSceneHidden).potteryRotationZ
          = demoSceneHidden.potteryRotationZ)) ∧
    (((animate demoEnv 0 demoSceneHidden).cocarRotationY = demoEnv.sin (0 * 0.5) * 0.2 ∧
        (animate demoEnv 0 demoSceneHidden).cocarPositionY = 1 + demoEnv.sin 0 * 0.1) ∧
      (animate demoEnv 0 demoSceneHidden).uScanHeight = demoEnv.sin 0 * 2 + 1 ∧
      (animate demoEnv 0 demoSceneHidden).constellationRotationZ
        = demoEnv.sin (0 * 0.1) * 0.05) ∧
    ((animate demoEnv 0 demoScene).sparkPos (0 * 3 + 1)
        = (if storedHeight (demoScene.sparkPos (0 * 3 + 1)) (demoEnv.sparkSpeed 0) > 10 then 0
            else storedHeight (demoScene.sparkPos (0 * 3 + 1)) (demoEnv.sparkSpeed 0)) ∧
      (animate demoEnv 0 demoScene).rainPos (0 * 3 + 1)
        = (if storedHeight (demoScene.rainPos (0 * 3 + 1)) (- demoEnv.rainVel 0) < -5 then 15
            else storedHeight (demoScene.rainPos (0 * 3 + 1)) (- demoEnv.rainVel 0)) ∧
      ((animate demoEnv 0 demoScene).artifactRotationY = demoScene.artifactRotationY + 0.005 ∧
        (animate demoEnv 0 demoScene).potteryRotationZ = demoEnv.sin (0 * 0.5) * 0.1)) :=
  ⟨⟨(animate_updates_only_visible demoEnv 0 demoScene).1 rfl,
      (animate_updates_only_visible demoEnv 0 demoScene).2.1 rfl,
      (animate_updates_only_visible demoEnv 0 demoScene).2.2.2.2.2.1 rfl⟩,
    ⟨(animate_updates_only_visible demoEnv 0 demoSceneHidden).2.2.1 rfl,
      (animate_updates_only_visible demoEnv 0 demoSceneHidden).2.2.2.1 rfl,
      (animate_updates_only_visible demoEnv 0 demoSceneHidden).2.2.2.2.1 rfl⟩,
    ⟨(animate_updates_only_visible demoEnv 0 demoSceneHidden).2.2.2.2.2.2.1 rfl,
      (animate_updates_only_visible demoEnv 0 demoSceneHidden).2.2.2.2.2.2.2.1 rfl,
      (animate_updates_only_visible demoEnv 0 demoSceneHidden).2.2.2.2.2.2.2.2.2.2.2.1 rfl⟩,
    ⟨(animate_updates_only_visible demoEnv 0 demoScene).2.2.2.2.2.2.2.2.1 rfl 0
        (by norm_num [sparkCount]),
      (animate_updates_only_visible demoEnv 0 demoScene).2.2.2.2.2.2.2.2.2.1 rfl 0
        (by norm_num [rainCount]),
      (animate_updates_only_visible demoEnv 0 demoScene).2.2.2.2.2.2.2.2.2.2.1 rfl⟩⟩

/-! ### Dependence on the number of ticks -/

/-- The height of every spark cell after one tick, also outside a visible field. -/
theorem animate_spark_height (env : Env) (t : ℚ) (s : Scene) (i : Nat) :
    (animate env t s).sparkPos (i * 3 + 1)
      = if s.sparksVisible = true ∧ i < sparkCount then
          (if storedHeight (s.sparkPos (i * 3 + 1)) (env.sparkSpeed i) > 10 then 0
            else storedHeight (s.sparkPos (i * 3 + 1)) (env.sparkSpeed i))
        else s.sparkPos (i * 3 + 1) := by
  by_cases hv : s.sparksVisible = true
  · by_cases hi : i < sparkCount
    · rw [if_pos ⟨hv, hi⟩]
      exact (animate_spark env t s hv i hi).1
    · rw [if_neg (fun h => hi h.2), animate_sparkPos, if_pos hv, sparkStep_eq_recycleStep]
      exact (forLoop_recycleStep env.sparkSpeed sparkOut 0 env.random s.sparkPos
        s.randomCalls sparkCount).2.2.2 _ (fun j hj => ⟨by omega, by omega⟩)
  · rw [if_neg (fun h => hv h.1), animate_sparkPos, if_neg hv]

/-- The height of every rain cell after one tick, also outside a visible field. -/
theorem animate_rain_height (env : Env) (t : ℚ) (s : Scene) (i : Nat) :
    (animate env t s).rainPos (i * 3 + 1)
      = if s.rainVisible = true ∧ i < rainCount then
          (if storedHeight (s.rainPos (i * 3 + 1)) (- env.rainVel i) < -5 then 15
            else storedHeight (s.rainPos (i * 3 + 1)) (- env.rainVel i))
        else s.rainPos (i * 3 + 1) := by
  by_cases hv : s.rainVisible = true
  · by_cases hi : i < rainCount
    · rw [if_pos ⟨hv, hi⟩]
      exact (animate_rain env t s hv i hi).1
    · rw [if_neg (fun h => hi h.2), animate_rainPos, if_pos hv, rainStep_eq_recycleStep]
      exact (forLoop_recycleStep (fun k => - env.rainVel k) rainOut 15 env.random s.rainPos
        _ rainCount).2.2.2 _ (fun j hj => ⟨by omega, by omega⟩)
  · rw [if_neg (fun h => hv h.1), animate_rainPos, if_neg hv]

/-- One tick keeps two scenes in agreement on heights, whatever the two elapsed times. -/
theorem animate_sameHeights (env : Env) (t t' : ℚ) (s s' : Scene) (h : SameHeights s s') :
    SameHeights (animate env t s) (animate env t' s') := by
  obtain ⟨h1, h2, h3, h4, h5, h6⟩ := h
  obtain ⟨_, _, f3, f4, f5, _⟩ := animate_flags env t s
  obtain ⟨_, _, g3, g4, g5, _⟩ := animate_flags env t' s'
  refine ⟨by rw [f3, g3, h1], by rw [f4, g4, h2], by rw [f5, g5, h3], ?_, ?_, ?_⟩
  · intro i
    rw [animate_spark_height, animate_spark_height, h1, h4 i]
  · intro i
    rw [animate_rain_height, animate_rain_height, h2, h5 i]
  · rw [(animate_scalars env t s).2.2.2.2.2.1, (animate_scalars env t' s').2.2.2.2.2.1,
      h3, h6]

/-- Runs with the same number of ticks keep two scenes in agreement on heights. -/
theorem animateAll_sameHeights (env : Env) :
    ∀ (ts ts' : List ℚ) (s s' : Scene), ts.length = ts'.length → SameHeights s s' →
      SameHeights (animateAll env ts s) (animateAll env ts' s') := by
  intro ts
  induction ts with
  | nil =>
    intro ts' s s' hl h
    cases ts' with
    | nil => exact h
    | cons _ _ => simp at hl
  | cons t ts ih =>
    intro ts' s s' hl h
    cases ts' with
    | nil => simp at hl
    | cons t' ts' =>
      simp only [animateAll]
      exact ih ts' _ _ (by simpa using hl) (animate_sameHeights env t t' s s' h)

/-- The pottery spin after a run: 0.005 per tick while the pottery is shown. -/
theorem animateAll_artifactRotationY (env : Env) :
    ∀ (ts : List ℚ) (s : Scene), s.artifactGroupVisible = true →
      (animateAll env ts s).artifactRotationY = s.artifactRotationY + ts.length * 0.005 := by
  intro ts
  induction ts with
  | nil => intro s _; simp [animateAll]
  | cons t ts ih =>
    intro s hv
    simp only [animateAll]
    rw [ih _ (by rw [(animate_flags env t s).2.2.2.2.1]; exact hv),
      (animate_scalars env t s).2.2.2.2.2.1, if_pos hv]
    simp only [List.length_cons, Nat.cast_add, Nat.cast_one]
    ring

/-- C8, as stated, fails on the code: the runs with elapsed times `[1]` and `[1/2, 1]` end
at the same elapsed time, yet they leave different pottery rotations (0.005 against 0.01)
and different heights of spark 1 (0.02 against 0.04). -/
theorem motion_depends_on_frame_count :
    ([1] : List ℚ).getLast? = ([1 / 2, 1] : List ℚ).getLast? ∧
      (animateAll demoEnv [1] demoScene).artifactRotationY
        ≠ (animateAll demoEnv [1 / 2, 1] demoScene).artifactRotationY ∧
      (animateAll demoEnv [1] demoScene).sparkPos (1 * 3 + 1)
        ≠ (animateAll demoEnv [1 / 2, 1] demoScene).sparkPos (1 * 3 + 1) := by
  have hv : (animate demoEnv (1 / 2) demoScene).sparksVisible = true := by
    rw [(animate_flags demoEnv (1 / 2) demoScene).2.2.1]; rfl
  have hy : demoScene.sparkPos (1 * 3 + 1) = 0 := by simp [demoScene, initialScene]
  have hs : demoEnv.sparkSpeed 1 = 0.02 := rfl
  have hd : demoScene.sparksVisible = true := rfl
  refine ⟨rfl, ?_, ?_⟩
  · rw [animateAll_artifactRotationY demoEnv [1] demoScene rfl,
      animateAll_artifactRotationY demoEnv [1 / 2, 1] demoScene rfl]
    norm_num
  · have hlo : (1 / 64 : ℚ) ≤ storedHeight 0 0.02 := by
      have h := storedHeight_ge 1 (-6) 0 0.02 (by norm_num) (by norm_num) (by norm_num)
      exact le_trans (by norm_num) h
    have hhi : storedHeight 0 0.02 ≤ 1 / 32 := by
      have h := storedHeight_le 1 (-5) 0 0.02 (by norm_num) (by norm_num) (by norm_num)
      exact le_trans h (by norm_num)
    have hlo2 : (9 / 256 : ℚ) ≤ storedHeight (storedHeight 0 0.02) 0.02 := by
      have h := storedHeight_ge 9 (-8) (storedHeight 0 0.02) 0.02 (by norm_num)
        (by norm_num) (le_trans (by norm_num) (add_le_add_right hlo _))
      exact le_trans (by norm_num) h
    have hn1 : ¬ storedHeight 0 0.02 > 10 :=
      not_lt.mpr (le_trans hhi (by norm_num))
    have hn2 : ¬ storedHeight (storedHeight 0 0.02) 0.02 > 10 :=
      not_lt.mpr (storedHeight_le_ten _ _
        (le_trans (add_le_add_right hhi _) (by norm_num)))
    have hc1 : 1 < sparkCount := by norm_num [sparkCount]
    simp only [animateAll]
    rw [animate_spark_height, animate_spark_height, animate_spark_height, hv, hd, hy, hs,
      if_pos ⟨rfl, hc1⟩, if_neg hn1, if_pos ⟨rfl, hc1⟩, if_neg hn2]
    intro heq
    have : (9 / 256 : ℚ) ≤ 1 / 32 := by
      calc (9 / 256 : ℚ) ≤ storedHeight (storedHeight 0 0.02) 0.02 := hlo2
        _ = storedHeight 0 0.02 := heq.symm
        _ ≤ 1 / 32 := hhi
    norm_num at this

/-- C8, amended: per-frame motion depends on the number of ticks and not on the elapsed
times. Starting from the same state, any two sequences of animate ticks with the same
number of ticks leave the same spark heights, rain heights and `artifactGroup.rotation.y`,
whatever their elapsed times; while the pottery is shown its rotation grows by 0.005 per
tick. (Firefly positions depend on the elapsed time of every tick.) -/
theorem motion_depends_on_tick_count_only (env : Env) (ts ts' : List ℚ) (s : Scene)
    (hl : ts.length = ts'.length) :
    (∀ i, (animateAll env ts s).sparkPos (i * 3 + 1)
        = (animateAll env ts' s).sparkPos (i * 3 + 1)) ∧
      (∀ i, (animateAll env ts s).rainPos (i * 3 + 1)
        = (animateAll env ts' s).rainPos (i * 3 + 1)) ∧
      (animateAll env ts s).artifactRotationY = (animateAll env ts' s).artifactRotationY ∧
      (s.artifactGroupVisible = true →
        (animateAll env ts s).artifactRotationY
          = s.artifactRotationY + ts.length * 0.005) := by
  obtain ⟨_, _, _, h4, h5, h6⟩ :=
    animateAll_sameHeights env ts ts' s s hl ⟨rfl, rfl, rfl, fun _ => rfl, fun _ => rfl, rfl⟩
  exact ⟨h4, h5, h6, animateAll_artifactRotationY env ts s⟩

/-- The amended C8 on two runs of two ticks with different elapsed times. -/
theorem motion_depends_on_tick_count_only_witness :
    (∀ i, (animateAll demoEnv [1 / 2, 1] demoScene).sparkPos (i * 3 + 1)
        = (animateAll demoEnv [3, 7] demoScene).sparkPos (i * 3 + 1)) ∧
      (∀ i, (animateAll demoEnv [1 / 2, 1] demoScene).rainPos (i * 3 + 1)
        = (animateAll demoEnv [3, 7] demoScene).rainPos (i * 3 + 1)) ∧
      (animateAll demoEnv [1 / 2, 1] demoScene).artifactRotationY
        = (animateAll demoEnv [3, 7] demoScene).artifactRotationY ∧
      (animateAll demoEnv [1 / 2, 1] demoScene).artifactRotationY
        = demoScene.artifactRotationY + ([1 / 2, 1] : List ℚ).length * 0.005 :=
  ⟨(motion_depends_on_tick_count_only demoEnv [1 / 2, 1] [3, 7] demoScene rfl).1,
    (motion_depends_on_tick_count_only demoEnv [1 / 2, 1] [3, 7] demoScene rfl).2.1,
    (motion_depends_on_tick_count_only demoEnv [1 / 2, 1] [3, 7] demoScene rfl).2.2.1,
    (motion_depends_on_tick_count_only demoEnv [1 / 2, 1] [3, 7] demoScene rfl).2.2.2 rfl⟩

/-! ### Audio manager -/

theorem audioInv_initial : AudioInv initialAudio := by
  intro a h
  exact absurd rfl h

theorem audioElements_some {key a : String} (h : audioElements key = some a) : a = key := by
  unfold audioElements at h
  split at h
  · exact (Option.some.inj h).symm
  · exact absurd h (by simp)

theorem audioInv_toggleSound (st : AudioState) (h : AudioInv st) : AudioInv (toggleSound st) := by
  intro a ha
  cases hm : st.isMuted with
  | true =>
    -- sound becomes unmuted; nothing had a non-zero target while muted
    have hsame : (toggleSound st).targetVolume = st.targetVolume := by
      simp [toggleSound, hm, getCurrentSection]
    rw [hsame] at ha
    have := (h a ha).2
    rw [hm] at this
    exact absurd this (by simp)
  | false =>
    -- sound becomes muted; the current audio is faded out
    cases hc : st.currentAudio with
    | none =>
      have hsame : (toggleSound st).targetVolume = st.targetVolume := by
        simp [toggleSound, hm, hc]
      rw [hsame] at ha
      have := (h a ha).1
      rw [hc] at this
      exact absurd this (by simp)
    | some c =>
      have hsame : (toggleSound st).targetVolume = Function.update st.targetVolume c 0 := by
        simp [toggleSound, hm, hc, fadeOut]
      rw [hsame] at ha
      by_cases hac : a = c
      · subst hac
        rw [Function.update_same] at ha
        exact absurd rfl ha
      · rw [Function.update_noteq hac] at ha
        have := (h a ha).1
        rw [hc] at this
        exact absurd (Option.some.inj this).symm hac

theorem playAudio_muted (sectionId : String) (st : AudioState) (hm : st.isMuted = true) :
    playAudio sectionId st = st := by
  simp [playAudio, hm]

theorem playAudio_unknown (sectionId : String) (st : AudioState)
    (he : audioElements sectionId = none) : playAudio sectionId st = st := by
  simp [playAudio, he]

theorem playAudio_same (sectionId n : String) (st : AudioState) (hm : st.isMuted = false)
    (he : audioElements sectionId = some n) (hc : st.currentAudio = some n) :
    playAudio sectionId st = st := by
  simp [playAudio, hm, he, hc]

theorem playAudio_first (sectionId n : String) (st : AudioState) (hm : st.isMuted = false)
    (he : audioElements sectionId = some n) (hc : st.currentAudio = none) :
    playAudio sectionId st = fadeIn n { st with currentAudio := some n } := by
  simp [playAudio, hm, he, hc]

theorem playAudio_switch (sectionId n c : String) (st : AudioState)
    (hm : st.isMuted = false) (he : audioElements sectionId = some n)
    (hc : st.currentAudio = some c) (hcn : c ≠ n) :
    playAudio sectionId st = fadeIn n { fadeOut c st with currentAudio := some n } := by
  simp [playAudio, hm, he, hc, hcn, fadeOut]

theorem audioInv_playAudio (sectionId : String) (st : AudioState) (h : AudioInv st) :
    AudioInv (playAudio sectionId st) := by
  cases hm : st.isMuted with
  | true => rw [playAudio_muted sectionId st hm]; exact h
  | false =>
    cases he : audioElements sectionId with
    | none => rw [playAudio_unknown sectionId st he]; exact h
    | some n =>
      cases hc : st.currentAudio with
      | none =>
        rw [playAudio_first sectionId n st hm he hc]
        intro a ha
        simp only [fadeIn] at ha ⊢
        by_cases han : a = n
        · subst han
          exact ⟨rfl, hm⟩
        · rw [Function.update_noteq han] at ha
          have := (h a ha).1
          rw [hc] at this
          exact absurd this (by simp)
      | some c =>
        by_cases hcn : c = n
        · subst hcn
          rw [playAudio_same sectionId c st hm he hc]
          exact h
        · rw [playAudio_switch sectionId n c st hm he hc hcn]
          intro a ha
          simp only [fadeIn, fadeOut] at ha ⊢
          by_cases han : a = n
          · subst han
            exact ⟨rfl, hm⟩
          · rw [Function.update_noteq han] at ha
            by_cases hac : a = c
            · subst hac
              rw [Function.update_same] at ha
              exact absurd rfl ha
            · rw [Function.update_noteq hac] at ha
              have := (h a ha).1
              rw [hc] at this
              exact absurd (Option.some.inj this).symm hac

theorem audioInv_runAudio :
    ∀ (calls : List AudioCall) (st : AudioState), AudioInv st → AudioInv (runAudio calls st) := by
  intro calls
  induction calls with
  | nil => intro st h; exact h
  | cons c cs ih =>
    intro st h
    simp only [runAudio, List.foldl_cons]
    apply ih
    cases c with
    | toggleSound => exact audioInv_toggleSound st h
    | playAudio sectionId => exact audioInv_playAudio sectionId st h

/-- C9: after every sequence of `toggleSound` and `playAudio` calls from the initial state
at most one `Audio` has a non-zero target volume, it is `currentAudio`, and sound is then
unmuted; and a `playAudio` call that switches, with sound on, from the current audio to
the audio of a different section issues the fade-out of the previous audio and then the
fade-in of the new one, in this order and nothing else. -/
theorem audio_at_most_one_audible (calls : List AudioCall) :
    (∀ a b, (runAudio calls initialAudio).targetVolume a ≠ 0 →
        (runAudio calls initialAudio).targetVolume b ≠ 0 → a = b) ∧
      (∀ a, (runAudio calls initialAudio).targetVolume a ≠ 0 →
        (runAudio calls initialAudio).currentAudio = some a ∧
          (runAudio calls initialAudio).isMuted = false) ∧
      (∀ sectionId newAudio current,
        (runAudio calls initialAudio).isMuted = false →
        (runAudio calls initialAudio).currentAudio = some current →
        audioElements sectionId = some newAudio → current ≠ newAudio →
        (playAudio sectionId (runAudio calls initialAudio)).issued
            = (runAudio calls initialAudio).issued
              ++ [Fade.fadeOut current, Fade.fadeIn newAudio] ∧
          (playAudio sectionId (runAudio calls initialAudio)).currentAudio
            = some newAudio) := by
  have hinv := audioInv_runAudio calls initialAudio audioInv_initial
  refine ⟨?_, hinv, ?_⟩
  · intro a b ha hb
    have h1 := (hinv a ha).1
    rw [(hinv b hb).1] at h1
    exact (Option.some.inj h1).symm
  · intro sectionId newAudio current hm hc he hne
    rw [playAudio_switch sectionId newAudio current _ hm he hc hne]
    simp [fadeIn, fadeOut]

/-- C9 on a concrete session: sound is switched on, the origin chapter starts playing, then
the viewer enters the fire chapter. -/
theorem audio_at_most_one_audible_witness :
    ("chapter-origin" = "chapter-origin") ∧
      ((runAudio [AudioCall.toggleSound, AudioCall.playAudio "chapter-origin"]
            initialAudio).currentAudio = some "chapter-origin" ∧
        (runAudio [AudioCall.toggleSound, AudioCall.playAudio "chapter-origin"]
            initialAudio).isMuted = false) ∧
      ((playAudio "chapter-fire"
            (runAudio [AudioCall.toggleSound, AudioCall.playAudio "chapter-origin"]
              initialAudio)).issued
          = (runAudio [AudioCall.toggleSound, AudioCall.playAudio "chapter-origin"]
              initialAudio).issued
            ++ [Fade.fadeOut "chapter-origin", Fade.fadeIn "chapter-fire"] ∧
        (playAudio "chapter-fire"
            (runAudio [AudioCall.toggleSound, AudioCall.playAudio "chapter-origin"]
              initialAudio)).currentAudio = some "chapter-fire") := by
  have hvol : (runAudio [AudioCall.toggleSound, AudioCall.playAudio "chapter-origin"]
      initialAudio).targetVolume "chapter-origin" ≠ 0 := by
    simp [runAudio, AudioCall.run, toggleSound, playAudio, getCurrentSection, initialAudio,
      audioElements, audioKeys, fadeIn]
    norm_num
  have hm : (runAudio [AudioCall.toggleSound, AudioCall.playAudio "chapter-origin"]
      initialAudio).isMuted = false := by
    simp [runAudio, AudioCall.run, toggleSound, playAudio, getCurrentSection, initialAudio,
      audioElements, audioKeys, fadeIn]
  have hc : (runAudio [AudioCall.toggleSound, AudioCall.playAudio "chapter-origin"]
      initialAudio).currentAudio = some "chapter-origin" := by
    simp [runAudio, AudioCall.run, toggleSound, playAudio, getCurrentSection, initialAudio,
      audioElements, audioKeys, fadeIn]
  exact
    ⟨(audio_at_most_one_audible
        [AudioCall.toggleSound, AudioCall.playAudio "chapter-origin"]).1 _ _ hvol hvol,
      (audio_at_most_one_audible
        [AudioCall.toggleSound, AudioCall.playAudio "chapter-origin"]).2.1 _ hvol,
      (audio_at_most_one_audible
        [AudioCall.toggleSound, AudioCall.playAudio "chapter-origin"]).2.2
        "chapter-fire" "chapter-fire" "chapter-origin" hm hc
        (by simp [audioElements, audioKeys]) (by decide)⟩

/-! ### Evaluation order of the fog-writing triggers -/

/-- C10 on the code: the script registers `#chapter-fire` before `#chapter-resistance`,
which is not their order in `chapters`; evaluated in registration order, the tick in which
`#chapter-resistance` fires `onLeave` and `#chapter-fire` fires `onEnter` ends with the
fog-density target at 0.02 (the last write is the resistance chapter's), from any scene;
evaluated in document order the same tick would end at 0.1. -/
theorem fog_after_resistance_leave_and_fire_enter (s : Scene) :
    sceneTriggers.map (fun t => t.trigger)
        = ["#chapter-artifacts", "#chapter-fire", "#chapter-resistance",
            "#chapter-cosmology"] ∧
      chapters.filter (fun c => c ∈ sceneTriggers.map (fun t => t.trigger))
        = ["#chapter-artifacts", "#chapter-resistance", "#chapter-fire",
            "#chapter-cosmology"] ∧
      documentOrder.map (fun t => t.trigger)
        = chapters.filter (fun c => c ∈ sceneTriggers.map (fun t => t.trigger)) ∧
      (evaluateTick sceneTriggers resistanceToFire s).fogDensityTarget = 0.02 ∧
      (evaluateTick sceneTriggers resistanceToFire s).forestGroupVisible = true ∧
      (evaluateTick documentOrder resistanceToFire s).fogDensityTarget = 0.1 := by
  refine ⟨by decide, by decide, by decide, ?_, ?_, ?_⟩ <;>
    simp [evaluateTick, sceneTriggers, documentOrder, resistanceToFire, Trigger.fire,
      Trigger.handler, chapterArtifacts, chapterFire, chapterResistance, chapterCosmology]

/-! ### Idempotence and symmetry of the trigger handlers -/

/-- C11, as stated, fails on the code: inside the resistance chapter the forest and the
sparks are hidden, yet the hide handler `onLeave` of `#chapter-fire` changes the scene
state, moving the fog-density target from 0.05 to 0.02. -/
theorem hide_on_hidden_props_changes_fog :
    resistanceScene.forestGroupVisible = false ∧ resistanceScene.sparksVisible = false ∧
      resistanceScene.fogDensityTarget = 0.05 ∧
      (chapterFire.onLeave resistanceScene).fogDensityTarget = 0.02 ∧
      chapterFire.onLeave resistanceScene ≠ resistanceScene := by
  refine ⟨rfl, rfl, rfl, rfl, ?_⟩
  intro h
  have h2 := congrArg Scene.fogDensityTarget h
  simp [chapterFire, resistanceScene, chapterResistance] at h2
  norm_num at h2

/-- C11, amended: for the pottery, forest+sparks, rain and constellation triggers a show
handler applied twice in a row yields the same scene state as applied once, and so does a
hide handler; a hide handler applied when its props are already invisible leaves the
visibility flags as they are and only sets the fog targets to its leave values (density
0.02, for the rain trigger also colour 0.02), so it leaves the scene state unchanged for
the pottery trigger, and for the other three when the fog targets already have these
values. -/
theorem show_hide_idempotent (s : Scene) :
    (chapterArtifacts.onEnter (chapterArtifacts.onEnter s) = chapterArtifacts.onEnter s ∧
      chapterFire.onEnter (chapterFire.onEnter s) = chapterFire.onEnter s ∧
      chapterResistance.onEnter (chapterResistance.onEnter s) = chapterResistance.onEnter s ∧
      chapterCosmology.onEnter (chapterCosmology.onEnter s) = chapterCosmology.onEnter s) ∧
    (chapterArtifacts.onEnterBack (chapterArtifacts.onEnterBack s)
        = chapterArtifacts.onEnterBack s ∧
      chapterFire.onEnterBack (chapterFire.onEnterBack s) = chapterFire.onEnterBack s ∧
      chapterResistance.onEnterBack (chapterResistance.onEnterBack s)
        = chapterResistance.onEnterBack s ∧
      chapterCosmology.onEnterBack (chapterCosmology.onEnterBack s)
        = chapterCosmology.onEnterBack s) ∧
    (chapterArtifacts.onLeave (chapterArtifacts.onLeave s) = chapterArtifacts.onLeave s ∧
      chapterFire.onLeave (chapterFire.onLeave s) = chapterFire.onLeave s ∧
      chapterResistance.onLeave (chapterResistance.onLeave s) = chapterResistance.onLeave s ∧
      chapterCosmology.onLeave (chapterCosmology.onLeave s) = chapterCosmology.onLeave s) ∧
    (chapterArtifacts.onLeaveBack (chapterArtifacts.onLeaveBack s)
        = chapterArtifacts.onLeaveBack s ∧
      chapterFire.onLeaveBack (chapterFire.onLeaveBack s) = chapterFire.onLeaveBack s ∧
      chapterResistance.onLeaveBack (chapterResistance.onLeaveBack s)
        = chapterResistance.onLeaveBack s ∧
      chapterCosmology.onLeaveBack (chapterCosmology.onLeaveBack s)
        = chapterCosmology.onLeaveBack s) ∧
    (s.artifactGroupVisible = false →
      chapterArtifacts.onLeave s = s ∧ chapterArtifacts.onLeaveBack s = s) ∧
    (s.forestGroupVisible = false → s.sparksVisible = false →
      chapterFire.onLeave s = { s with fogDensityTarget := 0.02 } ∧
      chapterFire.onLeaveBack s = { s with fogDensityTarget := 0.02 } ∧
      (s.fogDensityTarget = 0.02 → chapterFire.onLeave s = s ∧ chapterFire.onLeaveBack s = s)) ∧
    (s.rainVisible = false →
      chapterResistance.onLeave s
        = { s with fogDensityTarget := 0.02, fogColorTarget := ⟨0.02, 0.02, 0.02⟩ } ∧
      chapterResistance.onLeaveBack s
        = { s with fogDensityTarget := 0.02, fogColorTarget := ⟨0.02, 0.02, 0.02⟩ } ∧
      (s.fogDensityTarget = 0.02 → s.fogColorTarget = ⟨0.02, 0.02, 0.02⟩ →
        chapterResistance.onLeave s = s ∧ chapterResistance.onLeaveBack s = s)) ∧
    (s.constellationGroupVisible = false →
      chapterCosmology.onLeave s = { s with fogDensityTarget := 0.02 } ∧
      chapterCosmology.onLeaveBack s = { s with fogDensityTarget := 0.02 } ∧
      (s.fogDensityTarget = 0.02 →
        chapterCosmology.onLeave s = s ∧ chapterCosmology.onLeaveBack s = s)) := by
  refine ⟨⟨rfl, rfl, rfl, rfl⟩, ⟨rfl, rfl, rfl, rfl⟩, ⟨rfl, rfl, rfl, rfl⟩,
    ⟨rfl, rfl, rfl, rfl⟩, ?_, ?_, ?_, ?_⟩
  · intro h
    cases s
    simp only at h
    subst h
    exact ⟨rfl, rfl⟩
  · intro h1 h2
    cases s
    simp only at h1 h2
    subst h1 h2
    refine ⟨rfl, rfl, ?_⟩
    intro h3
    simp only at h3
    subst h3
    exact ⟨rfl, rfl⟩
  · intro h
    cases s
    simp only at h
    subst h
    refine ⟨rfl, rfl, ?_⟩
    intro h3 h4
    simp only at h3 h4
    subst h3 h4
    exact ⟨rfl, rfl⟩
  · intro h
    cases s
    simp only at h
    subst h
    refine ⟨rfl, rfl, ?_⟩
    intro h3
    simp only at h3
    subst h3
    exact ⟨rfl, rfl⟩

/-- The amended C11 on the scene reached by entering and leaving the resistance chapter,
where every prop is hidden and the fog targets are at their leave values: each hide
handler leaves the scene unchanged. -/
theorem show_hide_idempotent_witness :
    (chapterArtifacts.onLeave leftResistanceScene = leftResistanceScene ∧
        chapterArtifacts.onLeaveBack leftResistanceScene = leftResistanceScene) ∧
      (chapterFire.onLeave leftResistanceScene = leftResistanceScene ∧
        chapterFire.onLeaveBack leftResistanceScene = leftResistanceScene) ∧
      (chapterResistance.onLeave leftResistanceScene = leftResistanceScene ∧
        chapterResistance.onLeaveBack leftResistanceScene = leftResistanceScene) ∧
      (chapterCosmology.onLeave leftResistanceScene = leftResistanceScene ∧
        chapterCosmology.onLeaveBack leftResistanceScene = leftResistanceScene) :=
  ⟨(show_hide_idempotent leftResistanceScene).2.2.2.2.1 rfl,
    ((show_hide_idempotent leftResistanceScene).2.2.2.2.2.1 rfl rfl).2.2 rfl,
    ((show_hide_idempotent leftResistanceScene).2.2.2.2.2.2.1 rfl).2.2 rfl rfl,
    ((show_hide_idempotent leftResistanceScene).2.2.2.2.2.2.2 rfl).2.2 rfl⟩

/-- C12: for each of the `#chapter-artifacts`, `#chapter-fire`, `#chapter-resistance` and
`#chapter-cosmology` triggers `onEnterBack` is the same state transformer as `onEnter` and
`onLeaveBack` the same as `onLeave`, and a leave handler applied after an enter handler
leaves the trigger's visibility flags false, their value after set-up. -/
theorem enter_leave_symmetry (s : Scene) :
    (chapterArtifacts.onEnterBack = chapterArtifacts.onEnter ∧
      chapterArtifacts.onLeaveBack = chapterArtifacts.onLeave ∧
      chapterFire.onEnterBack = chapterFire.onEnter ∧
      chapterFire.onLeaveBack = chapterFire.onLeave ∧
      chapterResistance.onEnterBack = chapterResistance.onEnter ∧
      chapterResistance.onLeaveBack = chapterResistance.onLeave ∧
      chapterCosmology.onEnterBack = chapterCosmology.onEnter ∧
      chapterCosmology.onLeaveBack = chapterCosmology.onLeave) ∧
    ((chapterArtifacts.onLeave (chapterArtifacts.onEnter s)).artifactGroupVisible = false ∧
      (chapterArtifacts.onLeaveBack (chapterArtifacts.onEnterBack s)).artifactGroupVisible
        = false ∧
      (chapterFire.onLeave (chapterFire.onEnter s)).forestGroupVisible = false ∧
      (chapterFire.onLeave (chapterFire.onEnter s)).sparksVisible = false ∧
      (chapterFire.onLeaveBack (chapterFire.onEnterBack s)).forestGroupVisible = false ∧
      (chapterFire.onLeaveBack (chapterFire.onEnterBack s)).sparksVisible = false ∧
      (chapterResistance.onLeave (chapterResistance.onEnter s)).rainVisible = false ∧
      (chapterResistance.onLeaveBack (chapterResistance.onEnterBack s)).rainVisible = false ∧
      (chapterCosmology.onLeave (chapterCosmology.onEnter s)).constellationGroupVisible
        = false ∧
      (chapterCosmology.onLeaveBack (chapterCosmology.onEnterBack s)).constellationGroupVisible
        = false) ∧
    (startScene.artifactGroupVisible = false ∧ startScene.forestGroupVisible = false ∧
      startScene.sparksVisible = false ∧ startScene.rainVisible = false ∧
      startScene.constellationGroupVisible = false) :=
  ⟨⟨rfl, rfl, rfl, rfl, rfl, rfl, rfl, rfl⟩,
    ⟨rfl, rfl, rfl, rfl, rfl, rfl, rfl, rfl, rfl, rfl⟩,
    ⟨rfl, rfl, rfl, rfl, rfl⟩⟩

/-! ### Render loop -/

theorem animateCall_error (env : Env) (render : Scene → Except String Unit) (t : ℚ)
    (s : Scene) (e : String) (h : render (animate env t s) = .error e) :
    animateCall env render t s = ⟨animate env t s, .error e, false⟩ := by
  unfold animateCall
  rw [h]

theorem animateCall_ok (env : Env) (render : Scene → Except String Unit) (t : ℚ)
    (s : Scene) (h : render (animate env t s) = .ok ()) :
    animateCall env render t s = ⟨animate env t s, .ok (), true⟩ := by
  unfold animateCall
  rw [h]

/-- C13, as stated, fails on the code: with a renderer that raises only in the first frame,
the first call of `animate` raises and requests no frame, so of the three frames at elapsed
times 0, 1, 2 only the first call is ever made, although the renderer would work in the
other two. -/
theorem failing_tick_stops_render_loop :
    (animateCall demoEnv failsAtZero 0 demoScene).outcome = .error "render failed" ∧
      (animateCall demoEnv failsAtZero 0 demoScene).nextFrameRequested = false ∧
      (renderLoop demoEnv failsAtZero [0, 1, 2] demoScene).2 = 1 ∧
      failsAtZero (animate demoEnv 1 (animate demoEnv 0 demoScene)) = .ok () := by
  have h0 : failsAtZero (animate demoEnv 0 demoScene) = .error "render failed" := by
    unfold failsAtZero
    rw [(animate_scalars demoEnv 0 demoScene).1, if_pos rfl]
  have h1 : failsAtZero (animate demoEnv 1 (animate demoEnv 0 demoScene)) = .ok () := by
    unfold failsAtZero
    rw [(animate_scalars demoEnv 1 _).1, if_neg (by norm_num)]
  have hc := animateCall_error demoEnv failsAtZero 0 demoScene _ h0
  refine ⟨by rw [hc], by rw [hc], ?_, h1⟩
  simp only [renderLoop]
  rw [hc]
  simp

/-- C13, amended: `animate` has no failure handling. If `renderer.render` raises in a tick,
`animate` itself raises with the scene updates of that tick already made, it does not reach
`requestAnimationFrame`, no next tick is scheduled and the render loop stops with that call;
if `renderer.render` returns, `animate` returns and the next tick is scheduled. -/
theorem animate_raises_and_stops (env : Env) (render : Scene → Except String Unit) (t : ℚ)
    (s : Scene) :
    (∀ e, render (animate env t s) = .error e →
      (animateCall env render t s).outcome = .error e ∧
        (animateCall env render t s).nextFrameRequested = false ∧
        (animateCall env render t s).scene = animate env t s ∧
        ∀ ts, renderLoop env render (t :: ts) s = (animate env t s, 1)) ∧
    (render (animate env t s) = .ok () →
      (animateCall env render t s).outcome = .ok () ∧
        (animateCall env render t s).nextFrameRequested = true ∧
        (animateCall env render t s).scene = animate env t s ∧
        ∀ ts, (renderLoop env render (t :: ts) s).2
          = (renderLoop env render ts (animate env t s)).2 + 1) := by
  constructor
  · intro e h
    have hc := animateCall_error env render t s e h
    refine ⟨by rw [hc], by rw [hc], by rw [hc], ?_⟩
    intro ts
    simp only [renderLoop]
    rw [hc]
    simp
  · intro h
    have hc := animateCall_ok env render t s h
    refine ⟨by rw [hc], by rw [hc], by rw [hc], ?_⟩
    intro ts
    simp only [renderLoop]
    rw [hc]
    simp

/-- The amended C13 on the demonstration scene: the frame at elapsed time 0 raises and
stops the loop, a frame at elapsed time 1 returns and schedules the next one. -/
theorem animate_raises_and_stops_witness :
    ((animateCall demoEnv failsAtZero 0 demoScene).outcome = .error "render failed" ∧
        (animateCall demoEnv failsAtZero 0 demoScene).nextFrameRequested = false ∧
        (animateCall demoEnv failsAtZero 0 demoScene).scene = animate demoEnv 0 demoScene ∧
        ∀ ts, renderLoop demoEnv failsAtZero (0 :: ts) demoScene
          = (animate demoEnv 0 demoScene, 1)) ∧
      ((animateCall demoEnv failsAtZero 1 demoScene).outcome = .ok () ∧
        (animateCall demoEnv failsAtZero 1 demoScene).nextFrameRequested = true ∧
        (animateCall demoEnv failsAtZero 1 demoScene).scene = animate demoEnv 1 demoScene ∧
        ∀ ts, (renderLoop demoEnv failsAtZero (1 :: ts) demoScene).2
          = (renderLoop demoEnv failsAtZero ts (animate demoEnv 1 demoScene)).2 + 1) :=
  ⟨(animate_raises_and_stops demoEnv failsAtZero 0 demoScene).1 "render failed" (by
      unfold failsAtZero
      rw [(animate_scalars demoEnv 0 demoScene).1, if_pos rfl]),
    (animate_raises_and_stops demoEnv failsAtZero 1 demoScene).2 (by
      unfold failsAtZero
      rw [(animate_scalars demoEnv 1 demoScene).1, if_neg (by norm_num)])⟩

/-! ### Sound toggle -/

theorem toggleSound_unmute (st : AudioState) (h : st.isMuted = true) :
    toggleSound st = { st with isMuted := false } := by
  simp [toggleSound, h, getCurrentSection]

/-- C14 on the code: `getCurrentSection()` returns `null`, so switching sound on starts
nothing. From the state after set-up `toggleSound` only clears `isMuted`: `currentAudio`
stays `null` and no fade is issued; and after the origin chapter had been playing and
sound was switched off, switching it on again issues no fade-in and leaves the target
volume of every audio at 0. -/
theorem toggleSound_unmute_starts_nothing :
    (toggleSound initialAudio).isMuted = false ∧
      (toggleSound initialAudio).currentAudio = none ∧
      (toggleSound initialAudio).issued = [] ∧
      (runAudio [AudioCall.toggleSound, AudioCall.playAudio "chapter-origin",
          AudioCall.toggleSound, AudioCall.toggleSound] initialAudio).isMuted = false ∧
      (runAudio [AudioCall.toggleSound, AudioCall.playAudio "chapter-origin",
          AudioCall.toggleSound, AudioCall.toggleSound] initialAudio).issued
        = [Fade.fadeIn "chapter-origin", Fade.fadeOut "chapter-origin"] ∧
      (runAudio [AudioCall.toggleSound, AudioCall.playAudio "chapter-origin",
          AudioCall.toggleSound, AudioCall.toggleSound] initialAudio).targetVolume
            "chapter-origin" = 0 := by
  refine ⟨?_, ?_, ?_, ?_, ?_, ?_⟩ <;>
    simp [runAudio, AudioCall.run, toggleSound, playAudio, getCurrentSection, initialAudio,
      audioElements, audioKeys, fadeIn, fadeOut]

/-! ### Slider -/

/-- With at least one slide `goToSlide` leaves `currentSlideIndex` inside the slide list,
whatever integer it is called with. -/
theorem goToSlide_index_in_range (index : Int) (st : Slider) (h : 0 < st.slidesLength) :
    0 ≤ (goToSlide index st).currentSlideIndex ∧
      (goToSlide index st).currentSlideIndex < st.slidesLength := by
  have hpos : (0 : Int) < st.slidesLength := by exact_mod_cast h
  simp only [goToSlide, updateDots]
  split_ifs <;> constructor <;> omega

/-- C15 on the code: in a slider with three slides opened on slide 0, a click on the dot of
the current slide calls `goToSlide(0)`, and once its fade-out completes no slide carries
`active`, not even `slides[currentSlideIndex]`; the same happens when next is followed by
prev before the first fade-out completes. In both runs `currentSlideIndex` stays in range. -/
theorem slider_loses_active_slide :
    (sliderOpened.currentSlideIndex = 0 ∧ sliderOpened.slideActive 0 = true ∧
      sliderOpened.pendingComplete = []) ∧
    ((SliderEvent.dot 0).run sliderOpened).slideActive 0 = true ∧
    (runCompletions ((SliderEvent.dot 0).run sliderOpened)).currentSlideIndex = 0 ∧
    (∀ i, (runCompletions ((SliderEvent.dot 0).run sliderOpened)).slideActive i = false) ∧
    (runCompletions (SliderEvent.prev.run (SliderEvent.next.run sliderOpened))).currentSlideIndex
      = 0 ∧
    (∀ i, (runCompletions (SliderEvent.prev.run (SliderEvent.next.run sliderOpened))).slideActive i
      = false) := by
  refine ⟨⟨rfl, ?_, rfl⟩, ?_, ?_, ?_, ?_, ?_⟩
  · simp [sliderOpened, openCard, updateDots]
  · simp [SliderEvent.run, goToSlide, updateDots, sliderOpened, openCard, sliderAfterSetup]
  · simp [runCompletions, SliderEvent.run, goToSlide, updateDots, sliderOpened, openCard,
      sliderAfterSetup]
  · intro i
    by_cases hi : i = 0
    · subst hi
      simp [runCompletions, SliderEvent.run, goToSlide, updateDots, sliderOpened, openCard,
        sliderAfterSetup]
    · simp [runCompletions, SliderEvent.run, goToSlide, updateDots, sliderOpened, openCard,
        sliderAfterSetup, Function.update, hi]
  · simp [runCompletions, SliderEvent.run, goToSlide, updateDots, sliderOpened, openCard,
      sliderAfterSetup]
  · intro i
    by_cases hi : i = 0
    · subst hi
      simp [runCompletions, SliderEvent.run, goToSlide, updateDots, sliderOpened, openCard,
        sliderAfterSetup, Function.update]
    · by_cases hi1 : i = 1
      · subst hi1
        simp [runCompletions, SliderEvent.run, goToSlide, updateDots, sliderOpened, openCard,
          sliderAfterSetup, Function.update]
      · simp [runCompletions, SliderEvent.run, goToSlide, updateDots, sliderOpened, openCard,
          sliderAfterSetup, Function.update, hi, hi1]

/-! ### Cocar -/

/-- C16 on the code: the leave callbacks leave their `onComplete` pending and the enter
callbacks do not cancel it, so when `onLeave` (or `onLeaveBack`) is followed by
`onEnterBack` (or `onEnter`) and the pending completions then run, `cocarGroup.visible` is
false although the last callback fired was an enter callback; inside the knowledge section
the cocar is visible right after the enter callback and hidden once the leave tween has
completed, with its position target at 0. -/
theorem cocar_hidden_after_reversal (st : CocarStage) :
    (runPending (knowledgeOnEnterBack (knowledgeOnLeave st))).scene.cocarGroupVisible = false ∧
      (runPending (knowledgeOnEnter (knowledgeOnLeave st))).scene.cocarGroupVisible = false ∧
      (runPending (knowledgeOnEnterBack (knowledgeOnLeaveBack st))).scene.cocarGroupVisible
        = false ∧
      (runPending (knowledgeOnEnter (knowledgeOnLeaveBack st))).scene.cocarGroupVisible
        = false ∧
      insideKnowledge.scene.cocarGroupVisible = true ∧
      (knowledgeOnEnterBack (knowledgeOnLeave insideKnowledge)).scene.cocarGroupVisible
        = true ∧
      (runPending (knowledgeOnEnterBack (knowledgeOnLeave insideKnowledge))).scene.cocarGroupVisible
        = false ∧
      (runPending (knowledgeOnEnterBack (knowledgeOnLeave insideKnowledge))).cocarPositionZTarget
        = 0 := by
  refine ⟨?_, ?_, ?_, ?_, rfl, rfl, ?_, ?_⟩ <;>
    simp [runPending, knowledgeOnEnterBack, knowledgeOnEnter, knowledgeOnLeave,
      knowledgeOnLeaveBack, insideKnowledge, List.foldl_append]

end IndigenasSite
